import Mathlib

set_option maxRecDepth 8000
set_option maxHeartbeats 2000000
set_option exponentiation.threshold 100000

/-!
A verification development for the JNI bridge layer of jhdf5
(h5Constants.h, h5Constants.c, exceptionImp.c).  The native HDF5 library is an
external collaborator: its compiled-in constant values, its error-stack walk
and its message tables are parameters of the embedding, while every function
of the bridge layer itself is translated directly from the C sources.
-/

/-- Arguments carried by a constructed Java exception object: either the single
String argument of the one-argument constructors used by the simple raisers, or
the four arguments of the HDF5LibraryException constructor, listed in the
order they are passed (major code, major message, minor code, minor message). -/
inductive JavaExArgs where
  | msg : String → JavaExArgs
  | codes : Int → String → Int → String → JavaExArgs
  deriving DecidableEq

/-- A constructed managed exception object: the class, located by its fully
qualified name at raise time, plus the constructor arguments. -/
structure JavaException where
  className : String
  args : JavaExArgs
  deriving DecidableEq

/-- The managed runtime's exception machinery as the raisers of exceptionImp.c
observe it: whether FindClass succeeds on a class name, whether GetMethodID
succeeds on a (class, signature) pair, whether NewStringUTF succeeds on a
string, and whether the final Throw succeeds.  Each raiser is deterministic
given this environment. -/
structure JNIEnv where
  findClassOk : String → Bool
  getMethodOk : String → String → Bool
  newStringOk : String → Bool
  throwOk : Bool

/-- The observable result of one raiser call: the jboolean return value, the
lines written to the process's standard error stream, and the exception left
pending on the thread (none when the raiser failed to throw). -/
structure RaiserResult where
  ret : Bool
  err : List String
  thrown : Option JavaException
  deriving DecidableEq

/-- Common body of the raisers of exceptionImp.c that use the one-String-arg
constructor (h5outOfMemory, h5JNIFatalError, h5nullArgument, h5badArgument,
h5unimplemented, h5illegalConstantError, h5raiseException).  Each of them is
FindClass, then GetMethodID of the constructor with signature
"(Ljava/lang/String;)V", then NewStringUTF / NewObjectA / Throw.  A failed
class or constructor lookup returns JNI_FALSE with no output; a failed Throw
prints `failMsg` to stderr and returns JNI_FALSE; otherwise the constructed
exception is left pending and JNI_TRUE is returned. -/
def simpleRaiser (env : JNIEnv) (cls failMsg message : String) : RaiserResult :=
  if env.findClassOk cls then
    if env.getMethodOk cls "(Ljava/lang/String;)V" then
      if env.throwOk then
        ⟨true, [], some ⟨cls, JavaExArgs.msg message⟩⟩
      else
        ⟨false, [failMsg], none⟩
    else
      ⟨false, [], none⟩
  else
    ⟨false, [], none⟩

/-- h5outOfMemory: raises java/lang/OutOfMemoryError with the failing
function's name. -/
def h5outOfMemory (env : JNIEnv) (functName : String) : RaiserResult :=
  simpleRaiser env "java/lang/OutOfMemoryError"
    "FATAL ERROR:  OutOfMemoryError: Throw failed\n" functName

/-- h5JNIFatalError: raises java/lang/InternalError with the failing function's
name. -/
def h5JNIFatalError (env : JNIEnv) (functName : String) : RaiserResult :=
  simpleRaiser env "java/lang/InternalError"
    "FATAL ERROR:  JNIFatal: Throw failed\n" functName

/-- h5nullArgument: raises java/lang/NullPointerException with the failing
function's name. -/
def h5nullArgument (env : JNIEnv) (functName : String) : RaiserResult :=
  simpleRaiser env "java/lang/NullPointerException"
    "FATAL ERROR:  NullPointer: Throw failed\n" functName

/-- h5badArgument: raises java/lang/IllegalArgumentException with the failing
function's name. -/
def h5badArgument (env : JNIEnv) (functName : String) : RaiserResult :=
  simpleRaiser env "java/lang/IllegalArgumentException"
    "FATAL ERROR:  BadArgument: Throw failed\n" functName

/-- h5unimplemented: raises java/lang/UnsupportedOperationException with the
failing function's name. -/
def h5unimplemented (env : JNIEnv) (functName : String) : RaiserResult :=
  simpleRaiser env "java/lang/UnsupportedOperationException"
    "FATAL ERROR:  Unsupported: Throw failed\n" functName

/-- h5illegalConstantError: raises java/lang/IllegalArgumentException with the
fixed message string "Illegal java constant".  The source reuses the
"Unsupported" diagnostic text on its throw-failed path. -/
def h5illegalConstantError (env : JNIEnv) : RaiserResult :=
  simpleRaiser env "java/lang/IllegalArgumentException"
    "FATAL ERROR:  Unsupported: Throw failed\n" "Illegal java constant"

/-- h5raiseException: raises an arbitrary exception class with an arbitrary
message. -/
def h5raiseException (env : JNIEnv) (exception message : String) : RaiserResult :=
  simpleRaiser env exception
    "FATAL ERROR:  raiseException: Throw failed\n" message

/-- The observable outcome of one J2C call: the exception left pending (if
any), the jint return value, the stderr output, and the list of
native-library calls performed along the way (J2C performs none on any path:
every value it returns is a compiled-in constant). -/
structure J2COutcome where
  pending : Option JavaException
  ret : Int
  stderrOut : List String
  nativeCalls : List String
  deriving DecidableEq

/-- Outcome of a known-identifier branch of the J2C switch: return the native
value; nothing is raised, printed, or called. -/
def j2cOk (v : Int) : J2COutcome := ⟨none, v, [], []⟩

/-- Outcome of the default branch of the J2C switch:
`h5illegalConstantError(env); return -1;`. -/
def j2cDefault (env : JNIEnv) : J2COutcome :=
  ⟨(h5illegalConstantError env).thrown, -1, (h5illegalConstantError env).err, []⟩

/-- The C cast `(int)` applied to a 64-bit unsigned native value, as the
JH5F_UNLIMITED and JH5S_UNLIMITED branches of the switch do: keep the low 32
bits of the native representation and reinterpret them as a two's-complement
signed 32-bit integer. -/
def int32OfUInt64 (u : Nat) : Int :=
  if u % 4294967296 < 2147483648 then ((u % 4294967296 : Nat) : Int)
  else ((u % 4294967296 : Nat) : Int) - 4294967296

/-- First-match association lookup with a default value: the common shape of
the J2C switch and of the defineHDF5LibraryException conditional chain, used
to state and prove properties of both uniformly. -/
def assocLookupD {α : Type} : List (Int × α) → Int → α → α
  | [], _, d => d
  | p :: rest, c, d => if c = p.1 then p.2 else assocLookupD rest c d
/-! Java-side symbolic constant identifiers, from h5Constants.h.
Each `#define JH5... value` that is live (not commented out) in the header becomes
one definition.  Names ending in a token the verification toolchain reserves carry
a `_c` suffix. -/

def JH5_SZIP_MAX_PIXELS_PER_BLOCK : Int := 1000
def JH5_SZIP_NN_OPTION_MASK : Int := 1010
def JH5_SZIP_EC_OPTION_MASK : Int := 1020
def JH5_SZIP_ALLOW_K13_OPTION_MASK : Int := 1021
def JH5_SZIP_CHIP_OPTION_MASK : Int := 1022
def JH5D_ALLOC_TIME_DEFAULT : Int := 1030
def JH5D_ALLOC_TIME_EARLY : Int := 1040
def JH5D_ALLOC_TIME_ERROR : Int := 1050
def JH5D_ALLOC_TIME_INCR : Int := 1060
def JH5D_ALLOC_TIME_LATE : Int := 1070
def JH5D_CHUNKED : Int := 1080
def JH5D_COMPACT : Int := 1090
def JH5D_CONTIGUOUS : Int := 1100
def JH5D_FILL_TIME_ALLOC : Int := 1110
def JH5D_FILL_TIME_ERROR : Int := 1120
def JH5D_FILL_TIME_NEVER : Int := 1130
def JH5D_FILL_VALUE_DEFAULT : Int := 1140
def JH5D_FILL_VALUE_ERROR : Int := 1150
def JH5D_FILL_VALUE_UNDEFINED : Int := 1160
def JH5D_FILL_VALUE_USER_DEFINED : Int := 1170
def JH5D_LAYOUT_ERROR : Int := 1180
def JH5D_NLAYOUTS : Int := 1190
def JH5D_SPACE_STATUS_ALLOCATED : Int := 1200
def JH5D_SPACE_STATUS_ERROR : Int := 1210
def JH5D_SPACE_STATUS_NOT_ALLOCATED : Int := 1220
def JH5D_SPACE_STATUS_PART_ALLOCATED : Int := 1230
def JH5E_ALIGNMENT : Int := 1240
def JH5E_ALREADYEXISTS : Int := 1250
def JH5E_ALREADYINIT : Int := 1260
def JH5E_ARGS : Int := 1270
def JH5E_ATOM : Int := 1280
def JH5E_ATTR : Int := 1290
def JH5E_BADATOM : Int := 1300
def JH5E_BADFILE : Int := 1310
def JH5E_BADGROUP : Int := 1320
def JH5E_BADMESG : Int := 1330
def JH5E_BADRANGE : Int := 1340
def JH5E_BADSELECT : Int := 1350
def JH5E_BADSIZE : Int := 1360
def JH5E_BADTYPE : Int := 1370
def JH5E_BADVALUE : Int := 1380
def JH5E_BTREE : Int := 1390
def JH5E_CACHE : Int := 1400
def JH5E_CALLBACK : Int := 1410
def JH5E_CANAPPLY : Int := 1420
def JH5E_CANTCLIP : Int := 1450
def JH5E_CANTCLOSEFILE : Int := 1460
def JH5E_CANTCONVERT : Int := 1470
def JH5E_CANTCOPY : Int := 1480
def JH5E_CANTCOUNT : Int := 1490
def JH5E_CANTCREATE : Int := 1500
def JH5E_CANTDEC : Int := 1510
def JH5E_CANTDECODE : Int := 1520
def JH5E_CANTDELETE : Int := 1530
def JH5E_CANTENCODE : Int := 1540
def JH5E_CANTFLUSH : Int := 1550
def JH5E_CANTFREE : Int := 1560
def JH5E_CANTGET : Int := 1570
def JH5E_CANTINC : Int := 1580
def JH5E_CANTINIT : Int := 1590
def JH5E_CANTINSERT : Int := 1600
def JH5E_CANTLIST : Int := 1610
def JH5E_CANTLOAD : Int := 1620
def JH5E_CANTLOCK : Int := 1630
def JH5E_CANTMAKETREE : Int := 1640
def JH5E_CANTNEXT : Int := 1650
def JH5E_CANTOPENFILE : Int := 1660
def JH5E_CANTOPENOBJ : Int := 1670
def JH5E_CANTREGISTER : Int := 1690
def JH5E_CANTRELEASE : Int := 1700
def JH5E_CANTSELECT : Int := 1710
def JH5E_CANTSET : Int := 1730
def JH5E_CANTSPLIT : Int := 1740
def JH5E_CANTUNLOCK : Int := 1750
def JH5E_CLOSEERROR : Int := 1760
def JH5E_COMPLEN : Int := 1770
def JH5E_DATASET : Int := 1790
def JH5E_DATASPACE : Int := 1800
def JH5E_DATATYPE : Int := 1810
def JH5E_DUPCLASS : Int := 1820
def JH5E_EFL : Int := 1830
def JH5E_EXISTS : Int := 1840
def JH5E_FCNTL : Int := 1850
def JH5E_FILE : Int := 1860
def JH5E_FILEEXISTS : Int := 1870
def JH5E_FILEOPEN : Int := 1880
def JH5E_FUNC : Int := 1900
def JH5E_HEAP : Int := 1910
def JH5E_INTERNAL : Int := 1920
def JH5E_IO_c : Int := 1930
def JH5E_LINK : Int := 1940
def JH5E_LINKCOUNT : Int := 1950
def JH5E_MOUNT : Int := 1960
def JH5E_MPI : Int := 1970
def JH5E_MPIERRSTR : Int := 1980
def JH5E_NOFILTER : Int := 1990
def JH5E_NOIDS : Int := 2000
def JH5E_NONE_MAJOR : Int := 2010
def JH5E_NONE_MINOR : Int := 2020
def JH5E_NOSPACE : Int := 2030
def JH5E_NOTCACHED : Int := 2040
def JH5E_NOTFOUND : Int := 2050
def JH5E_NOTHDF5 : Int := 2060
def JH5E_OHDR : Int := 2070
def JH5E_OVERFLOW : Int := 2080
def JH5E_PLINE : Int := 2090
def JH5E_PLIST : Int := 2100
def JH5E_PROTECT : Int := 2110
def JH5E_READERROR : Int := 2120
def JH5E_REFERENCE : Int := 2130
def JH5E_RESOURCE : Int := 2140
def JH5E_RS : Int := 2150
def JH5E_SEEKERROR : Int := 2160
def JH5E_SETLOCAL : Int := 2170
def JH5E_STORAGE : Int := 2190
def JH5E_SYM : Int := 2200
def JH5E_TRUNCATED : Int := 2220
def JH5E_TST : Int := 2230
def JH5E_UNINITIALIZED : Int := 2240
def JH5E_UNSUPPORTED : Int := 2250
def JH5E_VERSION : Int := 2260
def JH5E_VFL : Int := 2270
def JH5E_WALK_DOWNWARD : Int := 2280
def JH5E_WALK_UPWARD : Int := 2290
def JH5E_WRITEERROR : Int := 2300
def JH5F_ACC_CREAT : Int := 2310
def JH5F_ACC_DEBUG : Int := 2320
def JH5F_ACC_EXCL : Int := 2330
def JH5F_ACC_RDONLY : Int := 2340
def JH5F_ACC_RDWR : Int := 2350
def JH5F_ACC_TRUNC : Int := 2360
def JH5F_CLOSE_DEFAULT : Int := 2370
def JH5F_CLOSE_SEMI : Int := 2380
def JH5F_CLOSE_STRONG : Int := 2390
def JH5F_CLOSE_WEAK : Int := 2400
def JH5F_OBJ_ALL : Int := 2410
def JH5F_OBJ_ATTR : Int := 2415
def JH5F_OBJ_DATASET : Int := 2420
def JH5F_OBJ_DATATYPE : Int := 2430
def JH5F_OBJ_FILE : Int := 2440
def JH5F_OBJ_GROUP : Int := 2450
def JH5F_OBJ_LOCAL : Int := 2455
def JH5F_SCOPE_DOWN : Int := 2460
def JH5F_SCOPE_GLOBAL : Int := 2470
def JH5F_SCOPE_LOCAL : Int := 2480
def JH5F_UNLIMITED : Int := 2490
def JH5F_LIBVER_EARLIEST : Int := 2494
def JH5F_LIBVER_LATEST : Int := 2495
def JH5G_DATASET : Int := 2500
def JH5G_GROUP : Int := 2510
def JH5G_LINK : Int := 2520
def JH5G_LINK_ERROR : Int := 2530
def JH5G_LINK_HARD : Int := 2540
def JH5G_LINK_SOFT : Int := 2550
def JH5G_NLIBTYPES : Int := 2560
def JH5G_NTYPES : Int := 2570
def JH5G_NUSERTYPES : Int := 2580
def JH5G_RESERVED_5 : Int := 2600
def JH5G_RESERVED_6 : Int := 2610
def JH5G_RESERVED_7 : Int := 2620
def JH5G_SAME_LOC : Int := 2630
def JH5G_TYPE : Int := 2640
def JH5G_UNKNOWN : Int := 2650
def JH5G_USERTYPE : Int := 2660
def JH5I_ATTR : Int := 2670
def JH5I_BADID : Int := 2680
def JH5I_DATASET : Int := 2690
def JH5I_DATASPACE : Int := 2700
def JH5I_DATATYPE : Int := 2710
def JH5I_FILE : Int := 2720
def JH5I_FILE_CLOSING : Int := 2730
def JH5I_GENPROP_CLS : Int := 2740
def JH5I_GENPROP_LST : Int := 2750
def JH5I_GROUP : Int := 2760
def JH5I_INVALID_HID : Int := 2770
def JH5I_REFERENCE : Int := 2790
def JH5I_VFL : Int := 2810
def JH5O_TYPE_UNKNOWN : Int := 5510
def JH5O_TYPE_GROUP : Int := 5520
def JH5O_TYPE_DATASET : Int := 5530
def JH5O_TYPE_NAMED_DATATYPE : Int := 5540
def JH5O_TYPE_NTYPES : Int := 5550
def JH5L_TYPE_ERROR : Int := 5560
def JH5L_TYPE_HARD : Int := 5570
def JH5L_TYPE_SOFT : Int := 5580
def JH5L_TYPE_EXTERNAL : Int := 5590
def JH5L_TYPE_MAX : Int := 5600
def JH5P_DATASET_CREATE : Int := 2820
def JH5P_DATASET_CREATE_DEFAULT : Int := 2830
def JH5P_DATASET_XFER : Int := 2840
def JH5P_DATASET_XFER_DEFAULT : Int := 2850
def JH5P_DEFAULT : Int := 2860
def JH5P_FILE_ACCESS : Int := 2870
def JH5P_FILE_ACCESS_DEFAULT : Int := 2880
def JH5P_FILE_CREATE : Int := 2890
def JH5P_FILE_CREATE_DEFAULT : Int := 2900
def JH5P_NO_CLASS : Int := 2930
def JH5P_ROOT : Int := 6000
def JH5P_OBJECT_CREATE : Int := 6010
def JH5P_DATASET_ACCESS : Int := 6020
def JH5P_DATASET_ACCESS_DEFAULT : Int := 6030
def JH5P_FILE_MOUNT : Int := 6040
def JH5P_FILE_MOUNT_DEFAULT : Int := 6050
def JH5P_GROUP_CREATE : Int := 6060
def JH5P_GROUP_CREATE_DEFAULT : Int := 6070
def JH5P_GROUP_ACCESS : Int := 6080
def JH5P_GROUP_ACCESS_DEFAULT : Int := 6090
def JH5P_DATATYPE_CREATE : Int := 6100
def JH5P_DATATYPE_CREATE_DEFAULT : Int := 6110
def JH5P_DATATYPE_ACCESS : Int := 6120
def JH5P_DATATYPE_ACCESS_DEFAULT : Int := 6130
def JH5P_STRING_CREATE : Int := 6140
def JH5P_ATTRIBUTE_CREATE : Int := 6150
def JH5P_ATTRIBUTE_CREATE_DEFAULT : Int := 6160
def JH5P_OBJECT_COPY : Int := 6170
def JH5P_OBJECT_COPY_DEFAULT : Int := 6180
def JH5P_LINK_CREATE : Int := 6190
def JH5P_LINK_CREATE_DEFAULT : Int := 6200
def JH5P_LINK_ACCESS : Int := 6210
def JH5P_LINK_ACCESS_DEFAULT : Int := 6220
def JH5R_BADTYPE : Int := 2950
def JH5R_DATASET_REGION : Int := 2960
def JH5R_MAXTYPE : Int := 2980
def JH5R_OBJ_REF_BUF_SIZE : Int := 2990
def JH5R_OBJECT : Int := 3000
def JH5S_ALL : Int := 3010
def JH5S_MAX_RANK : Int := 3030
def JH5S_NO_CLASS : Int := 3040
def JH5S_NULL : Int := 3045
def JH5S_SCALAR : Int := 3050
def JH5S_SEL_ALL : Int := 3060
def JH5S_SEL_ERROR : Int := 3070
def JH5S_SEL_HYPERSLABS : Int := 3080
def JH5S_SEL_N : Int := 3090
def JH5S_SEL_NONE : Int := 3100
def JH5S_SEL_POINTS : Int := 3110
def JH5S_SELECT_AND : Int := 3120
def JH5S_SELECT_APPEND : Int := 3130
def JH5S_SELECT_INVALID : Int := 3140
def JH5S_SELECT_NOOP : Int := 3150
def JH5S_SELECT_NOTA : Int := 3160
def JH5S_SELECT_NOTB : Int := 3170
def JH5S_SELECT_OR : Int := 3180
def JH5S_SELECT_PREPEND : Int := 3190
def JH5S_SELECT_SET : Int := 3200
def JH5S_SELECT_XOR : Int := 3210
def JH5S_SIMPLE : Int := 3220
def JH5S_UNLIMITED : Int := 3230
def JH5T_ALPHA_B16 : Int := 3240
def JH5T_ALPHA_B32 : Int := 3250
def JH5T_ALPHA_B64 : Int := 3260
def JH5T_ALPHA_B8 : Int := 3270
def JH5T_ALPHA_F32 : Int := 3280
def JH5T_ALPHA_F64 : Int := 3290
def JH5T_ALPHA_I16 : Int := 3300
def JH5T_ALPHA_I32 : Int := 3310
def JH5T_ALPHA_I64 : Int := 3320
def JH5T_ALPHA_I8 : Int := 3330
def JH5T_ALPHA_U16 : Int := 3340
def JH5T_ALPHA_U32 : Int := 3350
def JH5T_ALPHA_U64 : Int := 3360
def JH5T_ALPHA_U8 : Int := 3370
def JH5T_ARRAY : Int := 3380
def JH5T_BITFIELD : Int := 3390
def JH5T_BKG_NO : Int := 3400
def JH5T_BKG_YES : Int := 3410
def JH5T_C_S1 : Int := 3420
def JH5T_COMPOUND : Int := 3430
def JH5T_CONV_CONV : Int := 3440
def JH5T_CONV_FREE : Int := 3450
def JH5T_CONV_INIT : Int := 3460
def JH5T_CSET_ASCII : Int := 3470
def JH5T_CSET_ERROR : Int := 3480
def JH5T_CSET_RESERVED_10 : Int := 3500
def JH5T_CSET_RESERVED_11 : Int := 3510
def JH5T_CSET_RESERVED_12 : Int := 3520
def JH5T_CSET_RESERVED_13 : Int := 3530
def JH5T_CSET_RESERVED_14 : Int := 3540
def JH5T_CSET_RESERVED_15 : Int := 3550
def JH5T_CSET_RESERVED_2 : Int := 3560
def JH5T_CSET_RESERVED_3 : Int := 3570
def JH5T_CSET_RESERVED_4 : Int := 3580
def JH5T_CSET_RESERVED_5 : Int := 3590
def JH5T_CSET_RESERVED_6 : Int := 3600
def JH5T_CSET_RESERVED_7 : Int := 3610
def JH5T_CSET_RESERVED_8 : Int := 3620
def JH5T_CSET_RESERVED_9 : Int := 3630
def JH5T_DIR_ASCEND : Int := 3640
def JH5T_DIR_DEFAULT : Int := 3650
def JH5T_DIR_DESCEND : Int := 3660
def JH5T_ENUM : Int := 3670
def JH5T_FLOAT : Int := 3680
def JH5T_FORTRAN_S1 : Int := 3690
def JH5T_IEEE_F32BE : Int := 3700
def JH5T_IEEE_F32LE : Int := 3710
def JH5T_IEEE_F64BE : Int := 3720
def JH5T_IEEE_F64LE : Int := 3730
def JH5T_INTEGER : Int := 3740
def JH5T_INTEL_B16 : Int := 3750
def JH5T_INTEL_B32 : Int := 3760
def JH5T_INTEL_B64 : Int := 3770
def JH5T_INTEL_B8 : Int := 3780
def JH5T_INTEL_F32 : Int := 3790
def JH5T_INTEL_F64 : Int := 3800
def JH5T_INTEL_I16 : Int := 3810
def JH5T_INTEL_I32 : Int := 3820
def JH5T_INTEL_I64 : Int := 3830
def JH5T_INTEL_I8 : Int := 3840
def JH5T_INTEL_U16 : Int := 3850
def JH5T_INTEL_U32 : Int := 3860
def JH5T_INTEL_U64 : Int := 3870
def JH5T_INTEL_U8 : Int := 3880
def JH5T_MIPS_B16 : Int := 3890
def JH5T_MIPS_B32 : Int := 3900
def JH5T_MIPS_B64 : Int := 3910
def JH5T_MIPS_B8 : Int := 3920
def JH5T_MIPS_F32 : Int := 3930
def JH5T_MIPS_F64 : Int := 3940
def JH5T_MIPS_I16 : Int := 3950
def JH5T_MIPS_I32 : Int := 3960
def JH5T_MIPS_I64 : Int := 3970
def JH5T_MIPS_I8 : Int := 3980
def JH5T_MIPS_U16 : Int := 3990
def JH5T_MIPS_U32 : Int := 4000
def JH5T_MIPS_U64 : Int := 4010
def JH5T_MIPS_U8 : Int := 4020
def JH5T_NATIVE_B16 : Int := 4030
def JH5T_NATIVE_B32 : Int := 4040
def JH5T_NATIVE_B64 : Int := 4050
def JH5T_NATIVE_B8 : Int := 4060
def JH5T_NATIVE_CHAR : Int := 4070
def JH5T_NATIVE_DOUBLE : Int := 4080
def JH5T_NATIVE_FLOAT : Int := 4090
def JH5T_NATIVE_HADDR : Int := 4100
def JH5T_NATIVE_HBOOL : Int := 4110
def JH5T_NATIVE_HERR : Int := 4120
def JH5T_NATIVE_HSIZE : Int := 4130
def JH5T_NATIVE_HSSIZE : Int := 4140
def JH5T_NATIVE_INT : Int := 4150
def JH5T_NATIVE_INT_FAST16 : Int := 4160
def JH5T_NATIVE_INT_FAST32 : Int := 4170
def JH5T_NATIVE_INT_FAST64 : Int := 4180
def JH5T_NATIVE_INT_FAST8 : Int := 4190
def JH5T_NATIVE_INT_LEAST16 : Int := 4200
def JH5T_NATIVE_INT_LEAST32 : Int := 4210
def JH5T_NATIVE_INT_LEAST64 : Int := 4220
def JH5T_NATIVE_INT_LEAST8 : Int := 4230
def JH5T_NATIVE_INT16 : Int := 4240
def JH5T_NATIVE_INT32 : Int := 4250
def JH5T_NATIVE_INT64 : Int := 4260
def JH5T_NATIVE_INT8 : Int := 4270
def JH5T_NATIVE_LDOUBLE : Int := 4280
def JH5T_NATIVE_LLONG : Int := 4290
def JH5T_NATIVE_LONG : Int := 4300
def JH5T_NATIVE_OPAQUE_c : Int := 4310
def JH5T_NATIVE_SCHAR : Int := 4320
def JH5T_NATIVE_SHORT : Int := 4330
def JH5T_NATIVE_UCHAR : Int := 4340
def JH5T_NATIVE_UINT : Int := 4350
def JH5T_NATIVE_UINT_FAST16 : Int := 4360
def JH5T_NATIVE_UINT_FAST32 : Int := 4370
def JH5T_NATIVE_UINT_FAST64 : Int := 4380
def JH5T_NATIVE_UINT_FAST8 : Int := 4390
def JH5T_NATIVE_UINT_LEAST16 : Int := 4400
def JH5T_NATIVE_UINT_LEAST32 : Int := 4410
def JH5T_NATIVE_UINT_LEAST64 : Int := 4420
def JH5T_NATIVE_UINT_LEAST8 : Int := 4430
def JH5T_NATIVE_UINT16 : Int := 4440
def JH5T_NATIVE_UINT32 : Int := 4450
def JH5T_NATIVE_UINT64 : Int := 4460
def JH5T_NATIVE_UINT8 : Int := 4470
def JH5T_NATIVE_ULLONG : Int := 4480
def JH5T_NATIVE_ULONG : Int := 4490
def JH5T_NATIVE_USHORT : Int := 4500
def JH5T_NCLASSES : Int := 4510
def JH5T_NO_CLASS : Int := 4520
def JH5T_NORM_ERROR : Int := 4530
def JH5T_NORM_IMPLIED : Int := 4540
def JH5T_NORM_MSBSET : Int := 4550
def JH5T_NORM_NONE : Int := 4560
def JH5T_NPAD : Int := 4570
def JH5T_NSGN : Int := 4580
def JH5T_OPAQUE_c : Int := 4590
def JH5T_OPAQUE_TAG_MAX : Int := 4595
def JH5T_ORDER_BE : Int := 4600
def JH5T_ORDER_ERROR : Int := 4610
def JH5T_ORDER_LE : Int := 4620
def JH5T_ORDER_NONE : Int := 4630
def JH5T_ORDER_VAX : Int := 4640
def JH5T_PAD_BACKGROUND : Int := 4650
def JH5T_PAD_ERROR : Int := 4660
def JH5T_PAD_ONE : Int := 4670
def JH5T_PAD_ZERO : Int := 4680
def JH5T_PERS_DONTCARE : Int := 4690
def JH5T_PERS_HARD : Int := 4700
def JH5T_PERS_SOFT : Int := 4710
def JH5T_REFERENCE : Int := 4720
def JH5T_SGN_2 : Int := 4730
def JH5T_SGN_ERROR : Int := 4740
def JH5T_SGN_NONE : Int := 4750
def JH5T_STD_B16BE : Int := 4760
def JH5T_STD_B16LE : Int := 4770
def JH5T_STD_B32BE : Int := 4780
def JH5T_STD_B32LE : Int := 4790
def JH5T_STD_B64BE : Int := 4800
def JH5T_STD_B64LE : Int := 4810
def JH5T_STD_B8BE : Int := 4820
def JH5T_STD_B8LE : Int := 4830
def JH5T_STD_I16BE : Int := 4840
def JH5T_STD_I16LE : Int := 4850
def JH5T_STD_I32BE : Int := 4860
def JH5T_STD_I32LE : Int := 4870
def JH5T_STD_I64BE : Int := 4880
def JH5T_STD_I64LE : Int := 4890
def JH5T_STD_I8BE : Int := 4900
def JH5T_STD_I8LE : Int := 4910
def JH5T_STD_REF_DSETREG : Int := 4920
def JH5T_STD_REF_OBJ : Int := 4930
def JH5T_STD_U16BE : Int := 4940
def JH5T_STD_U16LE : Int := 4950
def JH5T_STD_U32BE : Int := 4960
def JH5T_STD_U32LE : Int := 4970
def JH5T_STD_U64BE : Int := 4980
def JH5T_STD_U64LE : Int := 4990
def JH5T_STD_U8BE : Int := 5000
def JH5T_STD_U8LE : Int := 5010
def JH5T_STR_ERROR : Int := 5020
def JH5T_STR_NULLPAD : Int := 5030
def JH5T_STR_NULLTERM : Int := 5040
def JH5T_STR_RESERVED_10 : Int := 5050
def JH5T_STR_RESERVED_11 : Int := 5060
def JH5T_STR_RESERVED_12 : Int := 5070
def JH5T_STR_RESERVED_13 : Int := 5080
def JH5T_STR_RESERVED_14 : Int := 5090
def JH5T_STR_RESERVED_15 : Int := 5100
def JH5T_STR_RESERVED_3 : Int := 5110
def JH5T_STR_RESERVED_4 : Int := 5120
def JH5T_STR_RESERVED_5 : Int := 5130
def JH5T_STR_RESERVED_6 : Int := 5140
def JH5T_STR_RESERVED_7 : Int := 5150
def JH5T_STR_RESERVED_8 : Int := 5160
def JH5T_STR_RESERVED_9 : Int := 5170
def JH5T_STR_SPACEPAD : Int := 5180
def JH5T_STRING : Int := 5190
def JH5T_TIME : Int := 5200
def JH5T_UNIX_D32BE : Int := 5210
def JH5T_UNIX_D32LE : Int := 5220
def JH5T_UNIX_D64BE : Int := 5230
def JH5T_UNIX_D64LE : Int := 5240
def JH5T_VARIABLE : Int := 5245
def JH5T_VLEN : Int := 5250
def JH5Z_CB_CONT : Int := 5260
def JH5Z_CB_ERROR : Int := 5270
def JH5Z_CB_FAIL : Int := 5280
def JH5Z_CB_NO : Int := 5290
def JH5Z_DISABLE_EDC : Int := 5300
def JH5Z_ENABLE_EDC : Int := 5310
def JH5Z_ERROR_EDC : Int := 5320
def JH5Z_FILTER_DEFLATE : Int := 5330
def JH5Z_FILTER_ERROR : Int := 5340
def JH5Z_FILTER_FLETCHER32 : Int := 5350
def JH5Z_FILTER_MAX : Int := 5360
def JH5Z_FILTER_NONE : Int := 5370
def JH5Z_FILTER_RESERVED : Int := 5380
def JH5Z_FILTER_SHUFFLE : Int := 5390
def JH5Z_FILTER_SZIP : Int := 5400
def JH5Z_FLAG_DEFMASK : Int := 5410
def JH5Z_FLAG_INVMASK : Int := 5420
def JH5Z_FLAG_MANDATORY : Int := 5430
def JH5Z_FLAG_OPTIONAL : Int := 5440
def JH5Z_FLAG_REVERSE : Int := 5450
def JH5Z_FLAG_SKIP_EDC : Int := 5460
def JH5Z_MAX_NFILTERS : Int := 5470
def JH5Z_NO_EDC : Int := 5480
def JH5Z_FILTER_CONFIG_ENCODE_ENABLED : Int := 5490
def JH5Z_FILTER_CONFIG_DECODE_ENABLED : Int := 5500

/-- All symbolic constant identifiers that are live (not commented out) in
h5Constants.h, in header order. -/
def headerIdList : List Int :=
  [JH5_SZIP_MAX_PIXELS_PER_BLOCK,
   JH5_SZIP_NN_OPTION_MASK,
   JH5_SZIP_EC_OPTION_MASK,
   JH5_SZIP_ALLOW_K13_OPTION_MASK,
   JH5_SZIP_CHIP_OPTION_MASK,
   JH5D_ALLOC_TIME_DEFAULT,
   JH5D_ALLOC_TIME_EARLY,
   JH5D_ALLOC_TIME_ERROR,
   JH5D_ALLOC_TIME_INCR,
   JH5D_ALLOC_TIME_LATE,
   JH5D_CHUNKED,
   JH5D_COMPACT,
   JH5D_CONTIGUOUS,
   JH5D_FILL_TIME_ALLOC,
   JH5D_FILL_TIME_ERROR,
   JH5D_FILL_TIME_NEVER,
   JH5D_FILL_VALUE_DEFAULT,
   JH5D_FILL_VALUE_ERROR,
   JH5D_FILL_VALUE_UNDEFINED,
   JH5D_FILL_VALUE_USER_DEFINED,
   JH5D_LAYOUT_ERROR,
   JH5D_NLAYOUTS,
   JH5D_SPACE_STATUS_ALLOCATED,
   JH5D_SPACE_STATUS_ERROR,
   JH5D_SPACE_STATUS_NOT_ALLOCATED,
   JH5D_SPACE_STATUS_PART_ALLOCATED,
   JH5E_ALIGNMENT,
   JH5E_ALREADYEXISTS,
   JH5E_ALREADYINIT,
   JH5E_ARGS,
   JH5E_ATOM,
   JH5E_ATTR,
   JH5E_BADATOM,
   JH5E_BADFILE,
   JH5E_BADGROUP,
   JH5E_BADMESG,
   JH5E_BADRANGE,
   JH5E_BADSELECT,
   JH5E_BADSIZE,
   JH5E_BADTYPE,
   JH5E_BADVALUE,
   JH5E_BTREE,
   JH5E_CACHE,
   JH5E_CALLBACK,
   JH5E_CANAPPLY,
   JH5E_CANTCLIP,
   JH5E_CANTCLOSEFILE,
   JH5E_CANTCONVERT,
   JH5E_CANTCOPY,
   JH5E_CANTCOUNT,
   JH5E_CANTCREATE,
   JH5E_CANTDEC,
   JH5E_CANTDECODE,
   JH5E_CANTDELETE,
   JH5E_CANTENCODE,
   JH5E_CANTFLUSH,
   JH5E_CANTFREE,
   JH5E_CANTGET,
   JH5E_CANTINC,
   JH5E_CANTINIT,
   JH5E_CANTINSERT,
   JH5E_CANTLIST,
   JH5E_CANTLOAD,
   JH5E_CANTLOCK,
   JH5E_CANTMAKETREE,
   JH5E_CANTNEXT,
   JH5E_CANTOPENFILE,
   JH5E_CANTOPENOBJ,
   JH5E_CANTREGISTER,
   JH5E_CANTRELEASE,
   JH5E_CANTSELECT,
   JH5E_CANTSET,
   JH5E_CANTSPLIT,
   JH5E_CANTUNLOCK,
   JH5E_CLOSEERROR,
   JH5E_COMPLEN,
   JH5E_DATASET,
   JH5E_DATASPACE,
   JH5E_DATATYPE,
   JH5E_DUPCLASS,
   JH5E_EFL,
   JH5E_EXISTS,
   JH5E_FCNTL,
   JH5E_FILE,
   JH5E_FILEEXISTS,
   JH5E_FILEOPEN,
   JH5E_FUNC,
   JH5E_HEAP,
   JH5E_INTERNAL,
   JH5E_IO_c,
   JH5E_LINK,
   JH5E_LINKCOUNT,
   JH5E_MOUNT,
   JH5E_MPI,
   JH5E_MPIERRSTR,
   JH5E_NOFILTER,
   JH5E_NOIDS,
   JH5E_NONE_MAJOR,
   JH5E_NONE_MINOR,
   JH5E_NOSPACE,
   JH5E_NOTCACHED,
   JH5E_NOTFOUND,
   JH5E_NOTHDF5,
   JH5E_OHDR,
   JH5E_OVERFLOW,
   JH5E_PLINE,
   JH5E_PLIST,
   JH5E_PROTECT,
   JH5E_READERROR,
   JH5E_REFERENCE,
   JH5E_RESOURCE,
   JH5E_RS,
   JH5E_SEEKERROR,
   JH5E_SETLOCAL,
   JH5E_STORAGE,
   JH5E_SYM,
   JH5E_TRUNCATED,
   JH5E_TST,
   JH5E_UNINITIALIZED,
   JH5E_UNSUPPORTED,
   JH5E_VERSION,
   JH5E_VFL,
   JH5E_WALK_DOWNWARD,
   JH5E_WALK_UPWARD,
   JH5E_WRITEERROR,
   JH5F_ACC_CREAT,
   JH5F_ACC_DEBUG,
   JH5F_ACC_EXCL,
   JH5F_ACC_RDONLY,
   JH5F_ACC_RDWR,
   JH5F_ACC_TRUNC,
   JH5F_CLOSE_DEFAULT,
   JH5F_CLOSE_SEMI,
   JH5F_CLOSE_STRONG,
   JH5F_CLOSE_WEAK,
   JH5F_OBJ_ALL,
   JH5F_OBJ_ATTR,
   JH5F_OBJ_DATASET,
   JH5F_OBJ_DATATYPE,
   JH5F_OBJ_FILE,
   JH5F_OBJ_GROUP,
   JH5F_OBJ_LOCAL,
   JH5F_SCOPE_DOWN,
   JH5F_SCOPE_GLOBAL,
   JH5F_SCOPE_LOCAL,
   JH5F_UNLIMITED,
   JH5F_LIBVER_EARLIEST,
   JH5F_LIBVER_LATEST,
   JH5G_DATASET,
   JH5G_GROUP,
   JH5G_LINK,
   JH5G_LINK_ERROR,
   JH5G_LINK_HARD,
   JH5G_LINK_SOFT,
   JH5G_NLIBTYPES,
   JH5G_NTYPES,
   JH5G_NUSERTYPES,
   JH5G_RESERVED_5,
   JH5G_RESERVED_6,
   JH5G_RESERVED_7,
   JH5G_SAME_LOC,
   JH5G_TYPE,
   JH5G_UNKNOWN,
   JH5G_USERTYPE,
   JH5I_ATTR,
   JH5I_BADID,
   JH5I_DATASET,
   JH5I_DATASPACE,
   JH5I_DATATYPE,
   JH5I_FILE,
   JH5I_FILE_CLOSING,
   JH5I_GENPROP_CLS,
   JH5I_GENPROP_LST,
   JH5I_GROUP,
   JH5I_INVALID_HID,
   JH5I_REFERENCE,
   JH5I_VFL,
   JH5O_TYPE_UNKNOWN,
   JH5O_TYPE_GROUP,
   JH5O_TYPE_DATASET,
   JH5O_TYPE_NAMED_DATATYPE,
   JH5O_TYPE_NTYPES,
   JH5L_TYPE_ERROR,
   JH5L_TYPE_HARD,
   JH5L_TYPE_SOFT,
   JH5L_TYPE_EXTERNAL,
   JH5L_TYPE_MAX,
   JH5P_DATASET_CREATE,
   JH5P_DATASET_CREATE_DEFAULT,
   JH5P_DATASET_XFER,
   JH5P_DATASET_XFER_DEFAULT,
   JH5P_DEFAULT,
   JH5P_FILE_ACCESS,
   JH5P_FILE_ACCESS_DEFAULT,
   JH5P_FILE_CREATE,
   JH5P_FILE_CREATE_DEFAULT,
   JH5P_NO_CLASS,
   JH5P_ROOT,
   JH5P_OBJECT_CREATE,
   JH5P_DATASET_ACCESS,
   JH5P_DATASET_ACCESS_DEFAULT,
   JH5P_FILE_MOUNT,
   JH5P_FILE_MOUNT_DEFAULT,
   JH5P_GROUP_CREATE,
   JH5P_GROUP_CREATE_DEFAULT,
   JH5P_GROUP_ACCESS,
   JH5P_GROUP_ACCESS_DEFAULT,
   JH5P_DATATYPE_CREATE,
   JH5P_DATATYPE_CREATE_DEFAULT,
   JH5P_DATATYPE_ACCESS,
   JH5P_DATATYPE_ACCESS_DEFAULT,
   JH5P_STRING_CREATE,
   JH5P_ATTRIBUTE_CREATE,
   JH5P_ATTRIBUTE_CREATE_DEFAULT,
   JH5P_OBJECT_COPY,
   JH5P_OBJECT_COPY_DEFAULT,
   JH5P_LINK_CREATE,
   JH5P_LINK_CREATE_DEFAULT,
   JH5P_LINK_ACCESS,
   JH5P_LINK_ACCESS_DEFAULT,
   JH5R_BADTYPE,
   JH5R_DATASET_REGION,
   JH5R_MAXTYPE,
   JH5R_OBJ_REF_BUF_SIZE,
   JH5R_OBJECT,
   JH5S_ALL,
   JH5S_MAX_RANK,
   JH5S_NO_CLASS,
   JH5S_NULL,
   JH5S_SCALAR,
   JH5S_SEL_ALL,
   JH5S_SEL_ERROR,
   JH5S_SEL_HYPERSLABS,
   JH5S_SEL_N,
   JH5S_SEL_NONE,
   JH5S_SEL_POINTS,
   JH5S_SELECT_AND,
   JH5S_SELECT_APPEND,
   JH5S_SELECT_INVALID,
   JH5S_SELECT_NOOP,
   JH5S_SELECT_NOTA,
   JH5S_SELECT_NOTB,
   JH5S_SELECT_OR,
   JH5S_SELECT_PREPEND,
   JH5S_SELECT_SET,
   JH5S_SELECT_XOR,
   JH5S_SIMPLE,
   JH5S_UNLIMITED,
   JH5T_ALPHA_B16,
   JH5T_ALPHA_B32,
   JH5T_ALPHA_B64,
   JH5T_ALPHA_B8,
   JH5T_ALPHA_F32,
   JH5T_ALPHA_F64,
   JH5T_ALPHA_I16,
   JH5T_ALPHA_I32,
   JH5T_ALPHA_I64,
   JH5T_ALPHA_I8,
   JH5T_ALPHA_U16,
   JH5T_ALPHA_U32,
   JH5T_ALPHA_U64,
   JH5T_ALPHA_U8,
   JH5T_ARRAY,
   JH5T_BITFIELD,
   JH5T_BKG_NO,
   JH5T_BKG_YES,
   JH5T_C_S1,
   JH5T_COMPOUND,
   JH5T_CONV_CONV,
   JH5T_CONV_FREE,
   JH5T_CONV_INIT,
   JH5T_CSET_ASCII,
   JH5T_CSET_ERROR,
   JH5T_CSET_RESERVED_10,
   JH5T_CSET_RESERVED_11,
   JH5T_CSET_RESERVED_12,
   JH5T_CSET_RESERVED_13,
   JH5T_CSET_RESERVED_14,
   JH5T_CSET_RESERVED_15,
   JH5T_CSET_RESERVED_2,
   JH5T_CSET_RESERVED_3,
   JH5T_CSET_RESERVED_4,
   JH5T_CSET_RESERVED_5,
   JH5T_CSET_RESERVED_6,
   JH5T_CSET_RESERVED_7,
   JH5T_CSET_RESERVED_8,
   JH5T_CSET_RESERVED_9,
   JH5T_DIR_ASCEND,
   JH5T_DIR_DEFAULT,
   JH5T_DIR_DESCEND,
   JH5T_ENUM,
   JH5T_FLOAT,
   JH5T_FORTRAN_S1,
   JH5T_IEEE_F32BE,
   JH5T_IEEE_F32LE,
   JH5T_IEEE_F64BE,
   JH5T_IEEE_F64LE,
   JH5T_INTEGER,
   JH5T_INTEL_B16,
   JH5T_INTEL_B32,
   JH5T_INTEL_B64,
   JH5T_INTEL_B8,
   JH5T_INTEL_F32,
   JH5T_INTEL_F64,
   JH5T_INTEL_I16,
   JH5T_INTEL_I32,
   JH5T_INTEL_I64,
   JH5T_INTEL_I8,
   JH5T_INTEL_U16,
   JH5T_INTEL_U32,
   JH5T_INTEL_U64,
   JH5T_INTEL_U8,
   JH5T_MIPS_B16,
   JH5T_MIPS_B32,
   JH5T_MIPS_B64,
   JH5T_MIPS_B8,
   JH5T_MIPS_F32,
   JH5T_MIPS_F64,
   JH5T_MIPS_I16,
   JH5T_MIPS_I32,
   JH5T_MIPS_I64,
   JH5T_MIPS_I8,
   JH5T_MIPS_U16,
   JH5T_MIPS_U32,
   JH5T_MIPS_U64,
   JH5T_MIPS_U8,
   JH5T_NATIVE_B16,
   JH5T_NATIVE_B32,
   JH5T_NATIVE_B64,
   JH5T_NATIVE_B8,
   JH5T_NATIVE_CHAR,
   JH5T_NATIVE_DOUBLE,
   JH5T_NATIVE_FLOAT,
   JH5T_NATIVE_HADDR,
   JH5T_NATIVE_HBOOL,
   JH5T_NATIVE_HERR,
   JH5T_NATIVE_HSIZE,
   JH5T_NATIVE_HSSIZE,
   JH5T_NATIVE_INT,
   JH5T_NATIVE_INT_FAST16,
   JH5T_NATIVE_INT_FAST32,
   JH5T_NATIVE_INT_FAST64,
   JH5T_NATIVE_INT_FAST8,
   JH5T_NATIVE_INT_LEAST16,
   JH5T_NATIVE_INT_LEAST32,
   JH5T_NATIVE_INT_LEAST64,
   JH5T_NATIVE_INT_LEAST8,
   JH5T_NATIVE_INT16,
   JH5T_NATIVE_INT32,
   JH5T_NATIVE_INT64,
   JH5T_NATIVE_INT8,
   JH5T_NATIVE_LDOUBLE,
   JH5T_NATIVE_LLONG,
   JH5T_NATIVE_LONG,
   JH5T_NATIVE_OPAQUE_c,
   JH5T_NATIVE_SCHAR,
   JH5T_NATIVE_SHORT,
   JH5T_NATIVE_UCHAR,
   JH5T_NATIVE_UINT,
   JH5T_NATIVE_UINT_FAST16,
   JH5T_NATIVE_UINT_FAST32,
   JH5T_NATIVE_UINT_FAST64,
   JH5T_NATIVE_UINT_FAST8,
   JH5T_NATIVE_UINT_LEAST16,
   JH5T_NATIVE_UINT_LEAST32,
   JH5T_NATIVE_UINT_LEAST64,
   JH5T_NATIVE_UINT_LEAST8,
   JH5T_NATIVE_UINT16,
   JH5T_NATIVE_UINT32,
   JH5T_NATIVE_UINT64,
   JH5T_NATIVE_UINT8,
   JH5T_NATIVE_ULLONG,
   JH5T_NATIVE_ULONG,
   JH5T_NATIVE_USHORT,
   JH5T_NCLASSES,
   JH5T_NO_CLASS,
   JH5T_NORM_ERROR,
   JH5T_NORM_IMPLIED,
   JH5T_NORM_MSBSET,
   JH5T_NORM_NONE,
   JH5T_NPAD,
   JH5T_NSGN,
   JH5T_OPAQUE_c,
   JH5T_OPAQUE_TAG_MAX,
   JH5T_ORDER_BE,
   JH5T_ORDER_ERROR,
   JH5T_ORDER_LE,
   JH5T_ORDER_NONE,
   JH5T_ORDER_VAX,
   JH5T_PAD_BACKGROUND,
   JH5T_PAD_ERROR,
   JH5T_PAD_ONE,
   JH5T_PAD_ZERO,
   JH5T_PERS_DONTCARE,
   JH5T_PERS_HARD,
   JH5T_PERS_SOFT,
   JH5T_REFERENCE,
   JH5T_SGN_2,
   JH5T_SGN_ERROR,
   JH5T_SGN_NONE,
   JH5T_STD_B16BE,
   JH5T_STD_B16LE,
   JH5T_STD_B32BE,
   JH5T_STD_B32LE,
   JH5T_STD_B64BE,
   JH5T_STD_B64LE,
   JH5T_STD_B8BE,
   JH5T_STD_B8LE,
   JH5T_STD_I16BE,
   JH5T_STD_I16LE,
   JH5T_STD_I32BE,
   JH5T_STD_I32LE,
   JH5T_STD_I64BE,
   JH5T_STD_I64LE,
   JH5T_STD_I8BE,
   JH5T_STD_I8LE,
   JH5T_STD_REF_DSETREG,
   JH5T_STD_REF_OBJ,
   JH5T_STD_U16BE,
   JH5T_STD_U16LE,
   JH5T_STD_U32BE,
   JH5T_STD_U32LE,
   JH5T_STD_U64BE,
   JH5T_STD_U64LE,
   JH5T_STD_U8BE,
   JH5T_STD_U8LE,
   JH5T_STR_ERROR,
   JH5T_STR_NULLPAD,
   JH5T_STR_NULLTERM,
   JH5T_STR_RESERVED_10,
   JH5T_STR_RESERVED_11,
   JH5T_STR_RESERVED_12,
   JH5T_STR_RESERVED_13,
   JH5T_STR_RESERVED_14,
   JH5T_STR_RESERVED_15,
   JH5T_STR_RESERVED_3,
   JH5T_STR_RESERVED_4,
   JH5T_STR_RESERVED_5,
   JH5T_STR_RESERVED_6,
   JH5T_STR_RESERVED_7,
   JH5T_STR_RESERVED_8,
   JH5T_STR_RESERVED_9,
   JH5T_STR_SPACEPAD,
   JH5T_STRING,
   JH5T_TIME,
   JH5T_UNIX_D32BE,
   JH5T_UNIX_D32LE,
   JH5T_UNIX_D64BE,
   JH5T_UNIX_D64LE,
   JH5T_VARIABLE,
   JH5T_VLEN,
   JH5Z_CB_CONT,
   JH5Z_CB_ERROR,
   JH5Z_CB_FAIL,
   JH5Z_CB_NO,
   JH5Z_DISABLE_EDC,
   JH5Z_ENABLE_EDC,
   JH5Z_ERROR_EDC,
   JH5Z_FILTER_DEFLATE,
   JH5Z_FILTER_ERROR,
   JH5Z_FILTER_FLETCHER32,
   JH5Z_FILTER_MAX,
   JH5Z_FILTER_NONE,
   JH5Z_FILTER_RESERVED,
   JH5Z_FILTER_SHUFFLE,
   JH5Z_FILTER_SZIP,
   JH5Z_FLAG_DEFMASK,
   JH5Z_FLAG_INVMASK,
   JH5Z_FLAG_MANDATORY,
   JH5Z_FLAG_OPTIONAL,
   JH5Z_FLAG_REVERSE,
   JH5Z_FLAG_SKIP_EDC,
   JH5Z_MAX_NFILTERS,
   JH5Z_NO_EDC,
   JH5Z_FILTER_CONFIG_ENCODE_ENABLED,
   JH5Z_FILTER_CONFIG_DECODE_ENABLED]

/-- The int-valued native constants that the J2C switch returns, one constructor
per native symbol name appearing in a live case of the switch (the two 64-bit
unsigned sentinels H5F_UNLIMITED and H5S_UNLIMITED are kept apart, since the
source applies an explicit `(int)` cast to them).  Names ending in a token the
verification toolchain reserves carry a `_c` suffix. -/
inductive NativeSym where
  | H5_SZIP_MAX_PIXELS_PER_BLOCK : NativeSym
  | H5_SZIP_NN_OPTION_MASK : NativeSym
  | H5_SZIP_EC_OPTION_MASK : NativeSym
  | H5_SZIP_ALLOW_K13_OPTION_MASK : NativeSym
  | H5_SZIP_CHIP_OPTION_MASK : NativeSym
  | H5D_ALLOC_TIME_DEFAULT : NativeSym
  | H5D_ALLOC_TIME_EARLY : NativeSym
  | H5D_ALLOC_TIME_ERROR : NativeSym
  | H5D_ALLOC_TIME_INCR : NativeSym
  | H5D_ALLOC_TIME_LATE : NativeSym
  | H5D_CHUNKED : NativeSym
  | H5D_COMPACT : NativeSym
  | H5D_CONTIGUOUS : NativeSym
  | H5D_FILL_TIME_ALLOC : NativeSym
  | H5D_FILL_TIME_ERROR : NativeSym
  | H5D_FILL_TIME_NEVER : NativeSym
  | H5D_FILL_VALUE_DEFAULT : NativeSym
  | H5D_FILL_VALUE_ERROR : NativeSym
  | H5D_FILL_VALUE_UNDEFINED : NativeSym
  | H5D_FILL_VALUE_USER_DEFINED : NativeSym
  | H5D_LAYOUT_ERROR : NativeSym
  | H5D_NLAYOUTS : NativeSym
  | H5D_SPACE_STATUS_ALLOCATED : NativeSym
  | H5D_SPACE_STATUS_ERROR : NativeSym
  | H5D_SPACE_STATUS_NOT_ALLOCATED : NativeSym
  | H5D_SPACE_STATUS_PART_ALLOCATED : NativeSym
  | H5E_ALIGNMENT : NativeSym
  | H5E_ALREADYEXISTS : NativeSym
  | H5E_ALREADYINIT : NativeSym
  | H5E_ARGS : NativeSym
  | H5E_ATOM : NativeSym
  | H5E_ATTR : NativeSym
  | H5E_BADATOM : NativeSym
  | H5E_BADFILE : NativeSym
  | H5E_BADGROUP : NativeSym
  | H5E_BADMESG : NativeSym
  | H5E_BADRANGE : NativeSym
  | H5E_BADSELECT : NativeSym
  | H5E_BADSIZE : NativeSym
  | H5E_BADTYPE : NativeSym
  | H5E_BADVALUE : NativeSym
  | H5E_BTREE : NativeSym
  | H5E_CACHE : NativeSym
  | H5E_CALLBACK : NativeSym
  | H5E_CANAPPLY : NativeSym
  | H5E_CANTCLIP : NativeSym
  | H5E_CANTCLOSEFILE : NativeSym
  | H5E_CANTCONVERT : NativeSym
  | H5E_CANTCOPY : NativeSym
  | H5E_CANTCOUNT : NativeSym
  | H5E_CANTCREATE : NativeSym
  | H5E_CANTDEC : NativeSym
  | H5E_CANTDECODE : NativeSym
  | H5E_CANTDELETE : NativeSym
  | H5E_CANTENCODE : NativeSym
  | H5E_CANTFLUSH : NativeSym
  | H5E_CANTFREE : NativeSym
  | H5E_CANTGET : NativeSym
  | H5E_CANTINC : NativeSym
  | H5E_CANTINIT : NativeSym
  | H5E_CANTINSERT : NativeSym
  | H5E_CANTLIST : NativeSym
  | H5E_CANTLOAD : NativeSym
  | H5E_CANTLOCK : NativeSym
  | H5E_CANTNEXT : NativeSym
  | H5E_CANTOPENFILE : NativeSym
  | H5E_CANTOPENOBJ : NativeSym
  | H5E_CANTREGISTER : NativeSym
  | H5E_CANTRELEASE : NativeSym
  | H5E_CANTSELECT : NativeSym
  | H5E_CANTSET : NativeSym
  | H5E_CANTSPLIT : NativeSym
  | H5E_CANTUNLOCK : NativeSym
  | H5E_CLOSEERROR : NativeSym
  | H5E_COMPLEN : NativeSym
  | H5E_DATASET : NativeSym
  | H5E_DATASPACE : NativeSym
  | H5E_DATATYPE : NativeSym
  | H5E_DUPCLASS : NativeSym
  | H5E_EFL : NativeSym
  | H5E_EXISTS : NativeSym
  | H5E_FCNTL : NativeSym
  | H5E_FILE : NativeSym
  | H5E_FILEEXISTS : NativeSym
  | H5E_FILEOPEN : NativeSym
  | H5E_FUNC : NativeSym
  | H5E_HEAP : NativeSym
  | H5E_INTERNAL : NativeSym
  | H5E_IO_c : NativeSym
  | H5E_LINK : NativeSym
  | H5E_LINKCOUNT : NativeSym
  | H5E_MOUNT : NativeSym
  | H5E_MPI : NativeSym
  | H5E_MPIERRSTR : NativeSym
  | H5E_NOFILTER : NativeSym
  | H5E_NOIDS : NativeSym
  | H5E_NONE_MAJOR : NativeSym
  | H5E_NONE_MINOR : NativeSym
  | H5E_NOSPACE : NativeSym
  | H5E_NOTCACHED : NativeSym
  | H5E_NOTFOUND : NativeSym
  | H5E_NOTHDF5 : NativeSym
  | H5E_OHDR : NativeSym
  | H5E_OVERFLOW : NativeSym
  | H5E_PLINE : NativeSym
  | H5E_PLIST : NativeSym
  | H5E_PROTECT : NativeSym
  | H5E_READERROR : NativeSym
  | H5E_REFERENCE : NativeSym
  | H5E_RESOURCE : NativeSym
  | H5E_RS : NativeSym
  | H5E_SEEKERROR : NativeSym
  | H5E_SETLOCAL : NativeSym
  | H5E_STORAGE : NativeSym
  | H5E_SYM : NativeSym
  | H5E_TRUNCATED : NativeSym
  | H5E_TST : NativeSym
  | H5E_UNINITIALIZED : NativeSym
  | H5E_UNSUPPORTED : NativeSym
  | H5E_VERSION : NativeSym
  | H5E_VFL : NativeSym
  | H5E_WALK_DOWNWARD : NativeSym
  | H5E_WALK_UPWARD : NativeSym
  | H5E_WRITEERROR : NativeSym
  | H5F_ACC_CREAT : NativeSym
  | H5F_ACC_DEBUG : NativeSym
  | H5F_ACC_EXCL : NativeSym
  | H5F_ACC_RDONLY : NativeSym
  | H5F_ACC_RDWR : NativeSym
  | H5F_ACC_TRUNC : NativeSym
  | H5F_CLOSE_DEFAULT : NativeSym
  | H5F_CLOSE_SEMI : NativeSym
  | H5F_CLOSE_STRONG : NativeSym
  | H5F_CLOSE_WEAK : NativeSym
  | H5F_OBJ_ALL : NativeSym
  | H5F_OBJ_DATASET : NativeSym
  | H5F_OBJ_DATATYPE : NativeSym
  | H5F_OBJ_FILE : NativeSym
  | H5F_OBJ_ATTR : NativeSym
  | H5F_OBJ_GROUP : NativeSym
  | H5F_SCOPE_DOWN : NativeSym
  | H5F_SCOPE_GLOBAL : NativeSym
  | H5F_SCOPE_LOCAL : NativeSym
  | H5F_LIBVER_EARLIEST : NativeSym
  | H5F_LIBVER_LATEST : NativeSym
  | H5G_DATASET : NativeSym
  | H5G_GROUP : NativeSym
  | H5G_LINK : NativeSym
  | H5G_LINK_ERROR : NativeSym
  | H5G_LINK_HARD : NativeSym
  | H5G_LINK_SOFT : NativeSym
  | H5G_NLIBTYPES : NativeSym
  | H5G_NTYPES : NativeSym
  | H5G_NUSERTYPES : NativeSym
  | H5G_RESERVED_5 : NativeSym
  | H5G_RESERVED_6 : NativeSym
  | H5G_RESERVED_7 : NativeSym
  | H5G_SAME_LOC : NativeSym
  | H5G_TYPE : NativeSym
  | H5G_UNKNOWN : NativeSym
  | H5I_ATTR : NativeSym
  | H5I_BADID : NativeSym
  | H5I_DATASET : NativeSym
  | H5I_DATASPACE : NativeSym
  | H5I_DATATYPE : NativeSym
  | H5I_FILE : NativeSym
  | H5I_GENPROP_CLS : NativeSym
  | H5I_GENPROP_LST : NativeSym
  | H5I_GROUP : NativeSym
  | H5I_INVALID_HID : NativeSym
  | H5I_REFERENCE : NativeSym
  | H5I_VFL : NativeSym
  | H5O_TYPE_UNKNOWN : NativeSym
  | H5O_TYPE_GROUP : NativeSym
  | H5O_TYPE_DATASET : NativeSym
  | H5O_TYPE_NAMED_DATATYPE : NativeSym
  | H5O_TYPE_NTYPES : NativeSym
  | H5L_TYPE_ERROR : NativeSym
  | H5L_TYPE_HARD : NativeSym
  | H5L_TYPE_SOFT : NativeSym
  | H5L_TYPE_EXTERNAL : NativeSym
  | H5L_TYPE_MAX : NativeSym
  | H5P_DATASET_CREATE : NativeSym
  | H5P_DATASET_CREATE_DEFAULT : NativeSym
  | H5P_DATASET_XFER : NativeSym
  | H5P_DATASET_XFER_DEFAULT : NativeSym
  | H5P_FILE_ACCESS : NativeSym
  | H5P_FILE_ACCESS_DEFAULT : NativeSym
  | H5P_FILE_CREATE : NativeSym
  | H5P_FILE_CREATE_DEFAULT : NativeSym
  | H5P_DEFAULT : NativeSym
  | H5P_NO_CLASS : NativeSym
  | H5P_ROOT : NativeSym
  | H5P_OBJECT_CREATE : NativeSym
  | H5P_DATASET_ACCESS : NativeSym
  | H5P_DATASET_ACCESS_DEFAULT : NativeSym
  | H5P_FILE_MOUNT : NativeSym
  | H5P_FILE_MOUNT_DEFAULT : NativeSym
  | H5P_GROUP_CREATE : NativeSym
  | H5P_GROUP_CREATE_DEFAULT : NativeSym
  | H5P_GROUP_ACCESS : NativeSym
  | H5P_GROUP_ACCESS_DEFAULT : NativeSym
  | H5P_DATATYPE_CREATE : NativeSym
  | H5P_DATATYPE_CREATE_DEFAULT : NativeSym
  | H5P_DATATYPE_ACCESS : NativeSym
  | H5P_DATATYPE_ACCESS_DEFAULT : NativeSym
  | H5P_STRING_CREATE : NativeSym
  | H5P_ATTRIBUTE_CREATE : NativeSym
  | H5P_ATTRIBUTE_CREATE_DEFAULT : NativeSym
  | H5P_OBJECT_COPY : NativeSym
  | H5P_OBJECT_COPY_DEFAULT : NativeSym
  | H5P_LINK_CREATE : NativeSym
  | H5P_LINK_CREATE_DEFAULT : NativeSym
  | H5P_LINK_ACCESS : NativeSym
  | H5P_LINK_ACCESS_DEFAULT : NativeSym
  | H5R_BADTYPE : NativeSym
  | H5R_DATASET_REGION : NativeSym
  | H5R_MAXTYPE : NativeSym
  | H5R_OBJ_REF_BUF_SIZE : NativeSym
  | H5R_OBJECT : NativeSym
  | H5S_ALL : NativeSym
  | H5S_MAX_RANK : NativeSym
  | H5S_NO_CLASS : NativeSym
  | H5S_NULL : NativeSym
  | H5S_SCALAR : NativeSym
  | H5S_SEL_ALL : NativeSym
  | H5S_SEL_ERROR : NativeSym
  | H5S_SEL_HYPERSLABS : NativeSym
  | H5S_SEL_N : NativeSym
  | H5S_SEL_NONE : NativeSym
  | H5S_SEL_POINTS : NativeSym
  | H5S_SELECT_AND : NativeSym
  | H5S_SELECT_APPEND : NativeSym
  | H5S_SELECT_INVALID : NativeSym
  | H5S_SELECT_NOOP : NativeSym
  | H5S_SELECT_NOTA : NativeSym
  | H5S_SELECT_NOTB : NativeSym
  | H5S_SELECT_OR : NativeSym
  | H5S_SELECT_PREPEND : NativeSym
  | H5S_SELECT_SET : NativeSym
  | H5S_SELECT_XOR : NativeSym
  | H5S_SIMPLE : NativeSym
  | H5T_ALPHA_B16 : NativeSym
  | H5T_ALPHA_B32 : NativeSym
  | H5T_ALPHA_B64 : NativeSym
  | H5T_ALPHA_B8 : NativeSym
  | H5T_ALPHA_F32 : NativeSym
  | H5T_ALPHA_F64 : NativeSym
  | H5T_ALPHA_I16 : NativeSym
  | H5T_ALPHA_I32 : NativeSym
  | H5T_ALPHA_I64 : NativeSym
  | H5T_ALPHA_I8 : NativeSym
  | H5T_ALPHA_U16 : NativeSym
  | H5T_ALPHA_U32 : NativeSym
  | H5T_ALPHA_U64 : NativeSym
  | H5T_ALPHA_U8 : NativeSym
  | H5T_ARRAY : NativeSym
  | H5T_BITFIELD : NativeSym
  | H5T_BKG_NO : NativeSym
  | H5T_BKG_YES : NativeSym
  | H5T_C_S1 : NativeSym
  | H5T_COMPOUND : NativeSym
  | H5T_CONV_CONV : NativeSym
  | H5T_CONV_FREE : NativeSym
  | H5T_CONV_INIT : NativeSym
  | H5T_CSET_ASCII : NativeSym
  | H5T_CSET_ERROR : NativeSym
  | H5T_CSET_RESERVED_10 : NativeSym
  | H5T_CSET_RESERVED_11 : NativeSym
  | H5T_CSET_RESERVED_12 : NativeSym
  | H5T_CSET_RESERVED_13 : NativeSym
  | H5T_CSET_RESERVED_14 : NativeSym
  | H5T_CSET_RESERVED_15 : NativeSym
  | H5T_CSET_RESERVED_2 : NativeSym
  | H5T_CSET_RESERVED_3 : NativeSym
  | H5T_CSET_RESERVED_4 : NativeSym
  | H5T_CSET_RESERVED_5 : NativeSym
  | H5T_CSET_RESERVED_6 : NativeSym
  | H5T_CSET_RESERVED_7 : NativeSym
  | H5T_CSET_RESERVED_8 : NativeSym
  | H5T_CSET_RESERVED_9 : NativeSym
  | H5T_DIR_ASCEND : NativeSym
  | H5T_DIR_DEFAULT : NativeSym
  | H5T_DIR_DESCEND : NativeSym
  | H5T_ENUM : NativeSym
  | H5T_FLOAT : NativeSym
  | H5T_FORTRAN_S1 : NativeSym
  | H5T_IEEE_F32BE : NativeSym
  | H5T_IEEE_F32LE : NativeSym
  | H5T_IEEE_F64BE : NativeSym
  | H5T_IEEE_F64LE : NativeSym
  | H5T_INTEGER : NativeSym
  | H5T_INTEL_B16 : NativeSym
  | H5T_INTEL_B32 : NativeSym
  | H5T_INTEL_B64 : NativeSym
  | H5T_INTEL_B8 : NativeSym
  | H5T_INTEL_F32 : NativeSym
  | H5T_INTEL_F64 : NativeSym
  | H5T_INTEL_I16 : NativeSym
  | H5T_INTEL_I32 : NativeSym
  | H5T_INTEL_I64 : NativeSym
  | H5T_INTEL_I8 : NativeSym
  | H5T_INTEL_U16 : NativeSym
  | H5T_INTEL_U32 : NativeSym
  | H5T_INTEL_U64 : NativeSym
  | H5T_INTEL_U8 : NativeSym
  | H5T_MIPS_B16 : NativeSym
  | H5T_MIPS_B32 : NativeSym
  | H5T_MIPS_B64 : NativeSym
  | H5T_MIPS_B8 : NativeSym
  | H5T_MIPS_F32 : NativeSym
  | H5T_MIPS_F64 : NativeSym
  | H5T_MIPS_I16 : NativeSym
  | H5T_MIPS_I32 : NativeSym
  | H5T_MIPS_I64 : NativeSym
  | H5T_MIPS_I8 : NativeSym
  | H5T_MIPS_U16 : NativeSym
  | H5T_MIPS_U32 : NativeSym
  | H5T_MIPS_U64 : NativeSym
  | H5T_MIPS_U8 : NativeSym
  | H5T_NATIVE_B16 : NativeSym
  | H5T_NATIVE_B32 : NativeSym
  | H5T_NATIVE_B64 : NativeSym
  | H5T_NATIVE_B8 : NativeSym
  | H5T_NATIVE_CHAR : NativeSym
  | H5T_NATIVE_DOUBLE : NativeSym
  | H5T_NATIVE_FLOAT : NativeSym
  | H5T_NATIVE_HADDR : NativeSym
  | H5T_NATIVE_HBOOL : NativeSym
  | H5T_NATIVE_HERR : NativeSym
  | H5T_NATIVE_HSIZE : NativeSym
  | H5T_NATIVE_HSSIZE : NativeSym
  | H5T_NATIVE_INT : NativeSym
  | H5T_NATIVE_INT_FAST16 : NativeSym
  | H5T_NATIVE_INT_FAST32 : NativeSym
  | H5T_NATIVE_INT_FAST64 : NativeSym
  | H5T_NATIVE_INT_FAST8 : NativeSym
  | H5T_NATIVE_INT_LEAST16 : NativeSym
  | H5T_NATIVE_INT_LEAST32 : NativeSym
  | H5T_NATIVE_INT_LEAST64 : NativeSym
  | H5T_NATIVE_INT_LEAST8 : NativeSym
  | H5T_NATIVE_INT16 : NativeSym
  | H5T_NATIVE_INT32 : NativeSym
  | H5T_NATIVE_INT64 : NativeSym
  | H5T_NATIVE_INT8 : NativeSym
  | H5T_NATIVE_LDOUBLE : NativeSym
  | H5T_NATIVE_LLONG : NativeSym
  | H5T_NATIVE_LONG : NativeSym
  | H5T_NATIVE_OPAQUE_c : NativeSym
  | H5T_NATIVE_SCHAR : NativeSym
  | H5T_NATIVE_SHORT : NativeSym
  | H5T_NATIVE_UCHAR : NativeSym
  | H5T_NATIVE_UINT : NativeSym
  | H5T_NATIVE_UINT_FAST16 : NativeSym
  | H5T_NATIVE_UINT_FAST32 : NativeSym
  | H5T_NATIVE_UINT_FAST64 : NativeSym
  | H5T_NATIVE_UINT_FAST8 : NativeSym
  | H5T_NATIVE_UINT_LEAST16 : NativeSym
  | H5T_NATIVE_UINT_LEAST32 : NativeSym
  | H5T_NATIVE_UINT_LEAST64 : NativeSym
  | H5T_NATIVE_UINT_LEAST8 : NativeSym
  | H5T_NATIVE_UINT16 : NativeSym
  | H5T_NATIVE_UINT32 : NativeSym
  | H5T_NATIVE_UINT64 : NativeSym
  | H5T_NATIVE_UINT8 : NativeSym
  | H5T_NATIVE_ULLONG : NativeSym
  | H5T_NATIVE_ULONG : NativeSym
  | H5T_NATIVE_USHORT : NativeSym
  | H5T_NCLASSES : NativeSym
  | H5T_NO_CLASS : NativeSym
  | H5T_NORM_ERROR : NativeSym
  | H5T_NORM_IMPLIED : NativeSym
  | H5T_NORM_MSBSET : NativeSym
  | H5T_NORM_NONE : NativeSym
  | H5T_NPAD : NativeSym
  | H5T_NSGN : NativeSym
  | H5T_OPAQUE_c : NativeSym
  | H5T_OPAQUE_TAG_MAX : NativeSym
  | H5T_ORDER_BE : NativeSym
  | H5T_ORDER_ERROR : NativeSym
  | H5T_ORDER_LE : NativeSym
  | H5T_ORDER_NONE : NativeSym
  | H5T_ORDER_VAX : NativeSym
  | H5T_PAD_BACKGROUND : NativeSym
  | H5T_PAD_ERROR : NativeSym
  | H5T_PAD_ONE : NativeSym
  | H5T_PAD_ZERO : NativeSym
  | H5T_PERS_DONTCARE : NativeSym
  | H5T_PERS_HARD : NativeSym
  | H5T_PERS_SOFT : NativeSym
  | H5T_REFERENCE : NativeSym
  | H5T_SGN_2 : NativeSym
  | H5T_SGN_ERROR : NativeSym
  | H5T_SGN_NONE : NativeSym
  | H5T_STD_B16BE : NativeSym
  | H5T_STD_B16LE : NativeSym
  | H5T_STD_B32BE : NativeSym
  | H5T_STD_B32LE : NativeSym
  | H5T_STD_B64BE : NativeSym
  | H5T_STD_B64LE : NativeSym
  | H5T_STD_B8BE : NativeSym
  | H5T_STD_B8LE : NativeSym
  | H5T_STD_I16BE : NativeSym
  | H5T_STD_I16LE : NativeSym
  | H5T_STD_I32BE : NativeSym
  | H5T_STD_I32LE : NativeSym
  | H5T_STD_I64BE : NativeSym
  | H5T_STD_I64LE : NativeSym
  | H5T_STD_I8BE : NativeSym
  | H5T_STD_I8LE : NativeSym
  | H5T_STD_REF_DSETREG : NativeSym
  | H5T_STD_REF_OBJ : NativeSym
  | H5T_STD_U16BE : NativeSym
  | H5T_STD_U16LE : NativeSym
  | H5T_STD_U32BE : NativeSym
  | H5T_STD_U32LE : NativeSym
  | H5T_STD_U64BE : NativeSym
  | H5T_STD_U64LE : NativeSym
  | H5T_STD_U8BE : NativeSym
  | H5T_STD_U8LE : NativeSym
  | H5T_STR_ERROR : NativeSym
  | H5T_STR_NULLPAD : NativeSym
  | H5T_STR_NULLTERM : NativeSym
  | H5T_STR_RESERVED_10 : NativeSym
  | H5T_STR_RESERVED_11 : NativeSym
  | H5T_STR_RESERVED_12 : NativeSym
  | H5T_STR_RESERVED_13 : NativeSym
  | H5T_STR_RESERVED_14 : NativeSym
  | H5T_STR_RESERVED_15 : NativeSym
  | H5T_STR_RESERVED_3 : NativeSym
  | H5T_STR_RESERVED_4 : NativeSym
  | H5T_STR_RESERVED_5 : NativeSym
  | H5T_STR_RESERVED_6 : NativeSym
  | H5T_STR_RESERVED_7 : NativeSym
  | H5T_STR_RESERVED_8 : NativeSym
  | H5T_STR_RESERVED_9 : NativeSym
  | H5T_STR_SPACEPAD : NativeSym
  | H5T_STRING : NativeSym
  | H5T_TIME : NativeSym
  | H5T_UNIX_D32BE : NativeSym
  | H5T_UNIX_D32LE : NativeSym
  | H5T_UNIX_D64BE : NativeSym
  | H5T_UNIX_D64LE : NativeSym
  | H5T_VARIABLE : NativeSym
  | H5T_VLEN : NativeSym
  | H5Z_CB_CONT : NativeSym
  | H5Z_CB_ERROR : NativeSym
  | H5Z_CB_FAIL : NativeSym
  | H5Z_CB_NO : NativeSym
  | H5Z_DISABLE_EDC : NativeSym
  | H5Z_ENABLE_EDC : NativeSym
  | H5Z_ERROR_EDC : NativeSym
  | H5Z_FILTER_DEFLATE : NativeSym
  | H5Z_FILTER_ERROR : NativeSym
  | H5Z_FILTER_FLETCHER32 : NativeSym
  | H5Z_FILTER_MAX : NativeSym
  | H5Z_FILTER_NONE : NativeSym
  | H5Z_FILTER_RESERVED : NativeSym
  | H5Z_FILTER_SHUFFLE : NativeSym
  | H5Z_FILTER_SZIP : NativeSym
  | H5Z_FLAG_DEFMASK : NativeSym
  | H5Z_FLAG_INVMASK : NativeSym
  | H5Z_FLAG_MANDATORY : NativeSym
  | H5Z_FLAG_OPTIONAL : NativeSym
  | H5Z_FLAG_REVERSE : NativeSym
  | H5Z_FLAG_SKIP_EDC : NativeSym
  | H5Z_MAX_NFILTERS : NativeSym
  | H5Z_NO_EDC : NativeSym
  | H5Z_FILTER_CONFIG_ENCODE_ENABLED : NativeSym
  | H5Z_FILTER_CONFIG_DECODE_ENABLED : NativeSym

/-- The native HDF5 library, as seen by this bridge layer: the compiled-in value
of each int-valued native constant, and the two 64-bit unsigned sentinel values.
They depend on the linked native library release, so the theorems quantify over
this structure. -/
structure NativeLib where
  constVal : NativeSym → Int
  H5F_UNLIMITED : Nat
  H5S_UNLIMITED : Nat

/-- The body of the `Java_ncsa_hdf_hdf5lib_H5_J2C` switch from h5Constants.c as
a dispatch table: one row per live `case JH5...: return H5...;`, in source order,
pairing the Java identifier with the outcome the branch returns (the native
constant's compiled-in value; with the `(int)` cast on the JH5F_UNLIMITED and
JH5S_UNLIMITED rows).  No row performs a native-library call. -/
def j2cTable (lib : NativeLib) : List (Int × J2COutcome) :=
  [(JH5_SZIP_MAX_PIXELS_PER_BLOCK, j2cOk (lib.constVal NativeSym.H5_SZIP_MAX_PIXELS_PER_BLOCK)),
   (JH5_SZIP_NN_OPTION_MASK, j2cOk (lib.constVal NativeSym.H5_SZIP_NN_OPTION_MASK)),
   (JH5_SZIP_EC_OPTION_MASK, j2cOk (lib.constVal NativeSym.H5_SZIP_EC_OPTION_MASK)),
   (JH5_SZIP_ALLOW_K13_OPTION_MASK, j2cOk (lib.constVal NativeSym.H5_SZIP_ALLOW_K13_OPTION_MASK)),
   (JH5_SZIP_CHIP_OPTION_MASK, j2cOk (lib.constVal NativeSym.H5_SZIP_CHIP_OPTION_MASK)),
   (JH5D_ALLOC_TIME_DEFAULT, j2cOk (lib.constVal NativeSym.H5D_ALLOC_TIME_DEFAULT)),
   (JH5D_ALLOC_TIME_EARLY, j2cOk (lib.constVal NativeSym.H5D_ALLOC_TIME_EARLY)),
   (JH5D_ALLOC_TIME_ERROR, j2cOk (lib.constVal NativeSym.H5D_ALLOC_TIME_ERROR)),
   (JH5D_ALLOC_TIME_INCR, j2cOk (lib.constVal NativeSym.H5D_ALLOC_TIME_INCR)),
   (JH5D_ALLOC_TIME_LATE, j2cOk (lib.constVal NativeSym.H5D_ALLOC_TIME_LATE)),
   (JH5D_CHUNKED, j2cOk (lib.constVal NativeSym.H5D_CHUNKED)),
   (JH5D_COMPACT, j2cOk (lib.constVal NativeSym.H5D_COMPACT)),
   (JH5D_CONTIGUOUS, j2cOk (lib.constVal NativeSym.H5D_CONTIGUOUS)),
   (JH5D_FILL_TIME_ALLOC, j2cOk (lib.constVal NativeSym.H5D_FILL_TIME_ALLOC)),
   (JH5D_FILL_TIME_ERROR, j2cOk (lib.constVal NativeSym.H5D_FILL_TIME_ERROR)),
   (JH5D_FILL_TIME_NEVER, j2cOk (lib.constVal NativeSym.H5D_FILL_TIME_NEVER)),
   (JH5D_FILL_VALUE_DEFAULT, j2cOk (lib.constVal NativeSym.H5D_FILL_VALUE_DEFAULT)),
   (JH5D_FILL_VALUE_ERROR, j2cOk (lib.constVal NativeSym.H5D_FILL_VALUE_ERROR)),
   (JH5D_FILL_VALUE_UNDEFINED, j2cOk (lib.constVal NativeSym.H5D_FILL_VALUE_UNDEFINED)),
   (JH5D_FILL_VALUE_USER_DEFINED, j2cOk (lib.constVal NativeSym.H5D_FILL_VALUE_USER_DEFINED)),
   (JH5D_LAYOUT_ERROR, j2cOk (lib.constVal NativeSym.H5D_LAYOUT_ERROR)),
   (JH5D_NLAYOUTS, j2cOk (lib.constVal NativeSym.H5D_NLAYOUTS)),
   (JH5D_SPACE_STATUS_ALLOCATED, j2cOk (lib.constVal NativeSym.H5D_SPACE_STATUS_ALLOCATED)),
   (JH5D_SPACE_STATUS_ERROR, j2cOk (lib.constVal NativeSym.H5D_SPACE_STATUS_ERROR)),
   (JH5D_SPACE_STATUS_NOT_ALLOCATED, j2cOk (lib.constVal NativeSym.H5D_SPACE_STATUS_NOT_ALLOCATED)),
   (JH5D_SPACE_STATUS_PART_ALLOCATED, j2cOk (lib.constVal NativeSym.H5D_SPACE_STATUS_PART_ALLOCATED)),
   (JH5E_ALIGNMENT, j2cOk (lib.constVal NativeSym.H5E_ALIGNMENT)),
   (JH5E_ALREADYEXISTS, j2cOk (lib.constVal NativeSym.H5E_ALREADYEXISTS)),
   (JH5E_ALREADYINIT, j2cOk (lib.constVal NativeSym.H5E_ALREADYINIT)),
   (JH5E_ARGS, j2cOk (lib.constVal NativeSym.H5E_ARGS)),
   (JH5E_ATOM, j2cOk (lib.constVal NativeSym.H5E_ATOM)),
   (JH5E_ATTR, j2cOk (lib.constVal NativeSym.H5E_ATTR)),
   (JH5E_BADATOM, j2cOk (lib.constVal NativeSym.H5E_BADATOM)),
   (JH5E_BADFILE, j2cOk (lib.constVal NativeSym.H5E_BADFILE)),
   (JH5E_BADGROUP, j2cOk (lib.constVal NativeSym.H5E_BADGROUP)),
   (JH5E_BADMESG, j2cOk (lib.constVal NativeSym.H5E_BADMESG)),
   (JH5E_BADRANGE, j2cOk (lib.constVal NativeSym.H5E_BADRANGE)),
   (JH5E_BADSELECT, j2cOk (lib.constVal NativeSym.H5E_BADSELECT)),
   (JH5E_BADSIZE, j2cOk (lib.constVal NativeSym.H5E_BADSIZE)),
   (JH5E_BADTYPE, j2cOk (lib.constVal NativeSym.H5E_BADTYPE)),
   (JH5E_BADVALUE, j2cOk (lib.constVal NativeSym.H5E_BADVALUE)),
   (JH5E_BTREE, j2cOk (lib.constVal NativeSym.H5E_BTREE)),
   (JH5E_CACHE, j2cOk (lib.constVal NativeSym.H5E_CACHE)),
   (JH5E_CALLBACK, j2cOk (lib.constVal NativeSym.H5E_CALLBACK)),
   (JH5E_CANAPPLY, j2cOk (lib.constVal NativeSym.H5E_CANAPPLY)),
   (JH5E_CANTCLIP, j2cOk (lib.constVal NativeSym.H5E_CANTCLIP)),
   (JH5E_CANTCLOSEFILE, j2cOk (lib.constVal NativeSym.H5E_CANTCLOSEFILE)),
   (JH5E_CANTCONVERT, j2cOk (lib.constVal NativeSym.H5E_CANTCONVERT)),
   (JH5E_CANTCOPY, j2cOk (lib.constVal NativeSym.H5E_CANTCOPY)),
   (JH5E_CANTCOUNT, j2cOk (lib.constVal NativeSym.H5E_CANTCOUNT)),
   (JH5E_CANTCREATE, j2cOk (lib.constVal NativeSym.H5E_CANTCREATE)),
   (JH5E_CANTDEC, j2cOk (lib.constVal NativeSym.H5E_CANTDEC)),
   (JH5E_CANTDECODE, j2cOk (lib.constVal NativeSym.H5E_CANTDECODE)),
   (JH5E_CANTDELETE, j2cOk (lib.constVal NativeSym.H5E_CANTDELETE)),
   (JH5E_CANTENCODE, j2cOk (lib.constVal NativeSym.H5E_CANTENCODE)),
   (JH5E_CANTFLUSH, j2cOk (lib.constVal NativeSym.H5E_CANTFLUSH)),
   (JH5E_CANTFREE, j2cOk (lib.constVal NativeSym.H5E_CANTFREE)),
   (JH5E_CANTGET, j2cOk (lib.constVal NativeSym.H5E_CANTGET)),
   (JH5E_CANTINC, j2cOk (lib.constVal NativeSym.H5E_CANTINC)),
   (JH5E_CANTINIT, j2cOk (lib.constVal NativeSym.H5E_CANTINIT)),
   (JH5E_CANTINSERT, j2cOk (lib.constVal NativeSym.H5E_CANTINSERT)),
   (JH5E_CANTLIST, j2cOk (lib.constVal NativeSym.H5E_CANTLIST)),
   (JH5E_CANTLOAD, j2cOk (lib.constVal NativeSym.H5E_CANTLOAD)),
   (JH5E_CANTLOCK, j2cOk (lib.constVal NativeSym.H5E_CANTLOCK)),
   (JH5E_CANTNEXT, j2cOk (lib.constVal NativeSym.H5E_CANTNEXT)),
   (JH5E_CANTOPENFILE, j2cOk (lib.constVal NativeSym.H5E_CANTOPENFILE)),
   (JH5E_CANTOPENOBJ, j2cOk (lib.constVal NativeSym.H5E_CANTOPENOBJ)),
   (JH5E_CANTREGISTER, j2cOk (lib.constVal NativeSym.H5E_CANTREGISTER)),
   (JH5E_CANTRELEASE, j2cOk (lib.constVal NativeSym.H5E_CANTRELEASE)),
   (JH5E_CANTSELECT, j2cOk (lib.constVal NativeSym.H5E_CANTSELECT)),
   (JH5E_CANTSET, j2cOk (lib.constVal NativeSym.H5E_CANTSET)),
   (JH5E_CANTSPLIT, j2cOk (lib.constVal NativeSym.H5E_CANTSPLIT)),
   (JH5E_CANTUNLOCK, j2cOk (lib.constVal NativeSym.H5E_CANTUNLOCK)),
   (JH5E_CLOSEERROR, j2cOk (lib.constVal NativeSym.H5E_CLOSEERROR)),
   (JH5E_COMPLEN, j2cOk (lib.constVal NativeSym.H5E_COMPLEN)),
   (JH5E_DATASET, j2cOk (lib.constVal NativeSym.H5E_DATASET)),
   (JH5E_DATASPACE, j2cOk (lib.constVal NativeSym.H5E_DATASPACE)),
   (JH5E_DATATYPE, j2cOk (lib.constVal NativeSym.H5E_DATATYPE)),
   (JH5E_DUPCLASS, j2cOk (lib.constVal NativeSym.H5E_DUPCLASS)),
   (JH5E_EFL, j2cOk (lib.constVal NativeSym.H5E_EFL)),
   (JH5E_EXISTS, j2cOk (lib.constVal NativeSym.H5E_EXISTS)),
   (JH5E_FCNTL, j2cOk (lib.constVal NativeSym.H5E_FCNTL)),
   (JH5E_FILE, j2cOk (lib.constVal NativeSym.H5E_FILE)),
   (JH5E_FILEEXISTS, j2cOk (lib.constVal NativeSym.H5E_FILEEXISTS)),
   (JH5E_FILEOPEN, j2cOk (lib.constVal NativeSym.H5E_FILEOPEN)),
   (JH5E_FUNC, j2cOk (lib.constVal NativeSym.H5E_FUNC)),
   (JH5E_HEAP, j2cOk (lib.constVal NativeSym.H5E_HEAP)),
   (JH5E_INTERNAL, j2cOk (lib.constVal NativeSym.H5E_INTERNAL)),
   (JH5E_IO_c, j2cOk (lib.constVal NativeSym.H5E_IO_c)),
   (JH5E_LINK, j2cOk (lib.constVal NativeSym.H5E_LINK)),
   (JH5E_LINKCOUNT, j2cOk (lib.constVal NativeSym.H5E_LINKCOUNT)),
   (JH5E_MOUNT, j2cOk (lib.constVal NativeSym.H5E_MOUNT)),
   (JH5E_MPI, j2cOk (lib.constVal NativeSym.H5E_MPI)),
   (JH5E_MPIERRSTR, j2cOk (lib.constVal NativeSym.H5E_MPIERRSTR)),
   (JH5E_NOFILTER, j2cOk (lib.constVal NativeSym.H5E_NOFILTER)),
   (JH5E_NOIDS, j2cOk (lib.constVal NativeSym.H5E_NOIDS)),
   (JH5E_NONE_MAJOR, j2cOk (lib.constVal NativeSym.H5E_NONE_MAJOR)),
   (JH5E_NONE_MINOR, j2cOk (lib.constVal NativeSym.H5E_NONE_MINOR)),
   (JH5E_NOSPACE, j2cOk (lib.constVal NativeSym.H5E_NOSPACE)),
   (JH5E_NOTCACHED, j2cOk (lib.constVal NativeSym.H5E_NOTCACHED)),
   (JH5E_NOTFOUND, j2cOk (lib.constVal NativeSym.H5E_NOTFOUND)),
   (JH5E_NOTHDF5, j2cOk (lib.constVal NativeSym.H5E_NOTHDF5)),
   (JH5E_OHDR, j2cOk (lib.constVal NativeSym.H5E_OHDR)),
   (JH5E_OVERFLOW, j2cOk (lib.constVal NativeSym.H5E_OVERFLOW)),
   (JH5E_PLINE, j2cOk (lib.constVal NativeSym.H5E_PLINE)),
   (JH5E_PLIST, j2cOk (lib.constVal NativeSym.H5E_PLIST)),
   (JH5E_PROTECT, j2cOk (lib.constVal NativeSym.H5E_PROTECT)),
   (JH5E_READERROR, j2cOk (lib.constVal NativeSym.H5E_READERROR)),
   (JH5E_REFERENCE, j2cOk (lib.constVal NativeSym.H5E_REFERENCE)),
   (JH5E_RESOURCE, j2cOk (lib.constVal NativeSym.H5E_RESOURCE)),
   (JH5E_RS, j2cOk (lib.constVal NativeSym.H5E_RS)),
   (JH5E_SEEKERROR, j2cOk (lib.constVal NativeSym.H5E_SEEKERROR)),
   (JH5E_SETLOCAL, j2cOk (lib.constVal NativeSym.H5E_SETLOCAL)),
   (JH5E_STORAGE, j2cOk (lib.constVal NativeSym.H5E_STORAGE)),
   (JH5E_SYM, j2cOk (lib.constVal NativeSym.H5E_SYM)),
   (JH5E_TRUNCATED, j2cOk (lib.constVal NativeSym.H5E_TRUNCATED)),
   (JH5E_TST, j2cOk (lib.constVal NativeSym.H5E_TST)),
   (JH5E_UNINITIALIZED, j2cOk (lib.constVal NativeSym.H5E_UNINITIALIZED)),
   (JH5E_UNSUPPORTED, j2cOk (lib.constVal NativeSym.H5E_UNSUPPORTED)),
   (JH5E_VERSION, j2cOk (lib.constVal NativeSym.H5E_VERSION)),
   (JH5E_VFL, j2cOk (lib.constVal NativeSym.H5E_VFL)),
   (JH5E_WALK_DOWNWARD, j2cOk (lib.constVal NativeSym.H5E_WALK_DOWNWARD)),
   (JH5E_WALK_UPWARD, j2cOk (lib.constVal NativeSym.H5E_WALK_UPWARD)),
   (JH5E_WRITEERROR, j2cOk (lib.constVal NativeSym.H5E_WRITEERROR)),
   (JH5F_ACC_CREAT, j2cOk (lib.constVal NativeSym.H5F_ACC_CREAT)),
   (JH5F_ACC_DEBUG, j2cOk (lib.constVal NativeSym.H5F_ACC_DEBUG)),
   (JH5F_ACC_EXCL, j2cOk (lib.constVal NativeSym.H5F_ACC_EXCL)),
   (JH5F_ACC_RDONLY, j2cOk (lib.constVal NativeSym.H5F_ACC_RDONLY)),
   (JH5F_ACC_RDWR, j2cOk (lib.constVal NativeSym.H5F_ACC_RDWR)),
   (JH5F_ACC_TRUNC, j2cOk (lib.constVal NativeSym.H5F_ACC_TRUNC)),
   (JH5F_CLOSE_DEFAULT, j2cOk (lib.constVal NativeSym.H5F_CLOSE_DEFAULT)),
   (JH5F_CLOSE_SEMI, j2cOk (lib.constVal NativeSym.H5F_CLOSE_SEMI)),
   (JH5F_CLOSE_STRONG, j2cOk (lib.constVal NativeSym.H5F_CLOSE_STRONG)),
   (JH5F_CLOSE_WEAK, j2cOk (lib.constVal NativeSym.H5F_CLOSE_WEAK)),
   (JH5F_OBJ_ALL, j2cOk (lib.constVal NativeSym.H5F_OBJ_ALL)),
   (JH5F_OBJ_DATASET, j2cOk (lib.constVal NativeSym.H5F_OBJ_DATASET)),
   (JH5F_OBJ_DATATYPE, j2cOk (lib.constVal NativeSym.H5F_OBJ_DATATYPE)),
   (JH5F_OBJ_FILE, j2cOk (lib.constVal NativeSym.H5F_OBJ_FILE)),
   (JH5F_OBJ_ATTR, j2cOk (lib.constVal NativeSym.H5F_OBJ_ATTR)),
   (JH5F_OBJ_GROUP, j2cOk (lib.constVal NativeSym.H5F_OBJ_GROUP)),
   (JH5F_SCOPE_DOWN, j2cOk (lib.constVal NativeSym.H5F_SCOPE_DOWN)),
   (JH5F_SCOPE_GLOBAL, j2cOk (lib.constVal NativeSym.H5F_SCOPE_GLOBAL)),
   (JH5F_SCOPE_LOCAL, j2cOk (lib.constVal NativeSym.H5F_SCOPE_LOCAL)),
   (JH5F_UNLIMITED, j2cOk (int32OfUInt64 lib.H5F_UNLIMITED)),
   (JH5F_LIBVER_EARLIEST, j2cOk (lib.constVal NativeSym.H5F_LIBVER_EARLIEST)),
   (JH5F_LIBVER_LATEST, j2cOk (lib.constVal NativeSym.H5F_LIBVER_LATEST)),
   (JH5G_DATASET, j2cOk (lib.constVal NativeSym.H5G_DATASET)),
   (JH5G_GROUP, j2cOk (lib.constVal NativeSym.H5G_GROUP)),
   (JH5G_LINK, j2cOk (lib.constVal NativeSym.H5G_LINK)),
   (JH5G_LINK_ERROR, j2cOk (lib.constVal NativeSym.H5G_LINK_ERROR)),
   (JH5G_LINK_HARD, j2cOk (lib.constVal NativeSym.H5G_LINK_HARD)),
   (JH5G_LINK_SOFT, j2cOk (lib.constVal NativeSym.H5G_LINK_SOFT)),
   (JH5G_NLIBTYPES, j2cOk (lib.constVal NativeSym.H5G_NLIBTYPES)),
   (JH5G_NTYPES, j2cOk (lib.constVal NativeSym.H5G_NTYPES)),
   (JH5G_NUSERTYPES, j2cOk (lib.constVal NativeSym.H5G_NUSERTYPES)),
   (JH5G_RESERVED_5, j2cOk (lib.constVal NativeSym.H5G_RESERVED_5)),
   (JH5G_RESERVED_6, j2cOk (lib.constVal NativeSym.H5G_RESERVED_6)),
   (JH5G_RESERVED_7, j2cOk (lib.constVal NativeSym.H5G_RESERVED_7)),
   (JH5G_SAME_LOC, j2cOk (lib.constVal NativeSym.H5G_SAME_LOC)),
   (JH5G_TYPE, j2cOk (lib.constVal NativeSym.H5G_TYPE)),
   (JH5G_UNKNOWN, j2cOk (lib.constVal NativeSym.H5G_UNKNOWN)),
   (JH5I_ATTR, j2cOk (lib.constVal NativeSym.H5I_ATTR)),
   (JH5I_BADID, j2cOk (lib.constVal NativeSym.H5I_BADID)),
   (JH5I_DATASET, j2cOk (lib.constVal NativeSym.H5I_DATASET)),
   (JH5I_DATASPACE, j2cOk (lib.constVal NativeSym.H5I_DATASPACE)),
   (JH5I_DATATYPE, j2cOk (lib.constVal NativeSym.H5I_DATATYPE)),
   (JH5I_FILE, j2cOk (lib.constVal NativeSym.H5I_FILE)),
   (JH5I_GENPROP_CLS, j2cOk (lib.constVal NativeSym.H5I_GENPROP_CLS)),
   (JH5I_GENPROP_LST, j2cOk (lib.constVal NativeSym.H5I_GENPROP_LST)),
   (JH5I_GROUP, j2cOk (lib.constVal NativeSym.H5I_GROUP)),
   (JH5I_INVALID_HID, j2cOk (lib.constVal NativeSym.H5I_INVALID_HID)),
   (JH5I_REFERENCE, j2cOk (lib.constVal NativeSym.H5I_REFERENCE)),
   (JH5I_VFL, j2cOk (lib.constVal NativeSym.H5I_VFL)),
   (JH5O_TYPE_UNKNOWN, j2cOk (lib.constVal NativeSym.H5O_TYPE_UNKNOWN)),
   (JH5O_TYPE_GROUP, j2cOk (lib.constVal NativeSym.H5O_TYPE_GROUP)),
   (JH5O_TYPE_DATASET, j2cOk (lib.constVal NativeSym.H5O_TYPE_DATASET)),
   (JH5O_TYPE_NAMED_DATATYPE, j2cOk (lib.constVal NativeSym.H5O_TYPE_NAMED_DATATYPE)),
   (JH5O_TYPE_NTYPES, j2cOk (lib.constVal NativeSym.H5O_TYPE_NTYPES)),
   (JH5L_TYPE_ERROR, j2cOk (lib.constVal NativeSym.H5L_TYPE_ERROR)),
   (JH5L_TYPE_HARD, j2cOk (lib.constVal NativeSym.H5L_TYPE_HARD)),
   (JH5L_TYPE_SOFT, j2cOk (lib.constVal NativeSym.H5L_TYPE_SOFT)),
   (JH5L_TYPE_EXTERNAL, j2cOk (lib.constVal NativeSym.H5L_TYPE_EXTERNAL)),
   (JH5L_TYPE_MAX, j2cOk (lib.constVal NativeSym.H5L_TYPE_MAX)),
   (JH5P_DATASET_CREATE, j2cOk (lib.constVal NativeSym.H5P_DATASET_CREATE)),
   (JH5P_DATASET_CREATE_DEFAULT, j2cOk (lib.constVal NativeSym.H5P_DATASET_CREATE_DEFAULT)),
   (JH5P_DATASET_XFER, j2cOk (lib.constVal NativeSym.H5P_DATASET_XFER)),
   (JH5P_DATASET_XFER_DEFAULT, j2cOk (lib.constVal NativeSym.H5P_DATASET_XFER_DEFAULT)),
   (JH5P_FILE_ACCESS, j2cOk (lib.constVal NativeSym.H5P_FILE_ACCESS)),
   (JH5P_FILE_ACCESS_DEFAULT, j2cOk (lib.constVal NativeSym.H5P_FILE_ACCESS_DEFAULT)),
   (JH5P_FILE_CREATE, j2cOk (lib.constVal NativeSym.H5P_FILE_CREATE)),
   (JH5P_FILE_CREATE_DEFAULT, j2cOk (lib.constVal NativeSym.H5P_FILE_CREATE_DEFAULT)),
   (JH5P_DEFAULT, j2cOk (lib.constVal NativeSym.H5P_DEFAULT)),
   (JH5P_NO_CLASS, j2cOk (lib.constVal NativeSym.H5P_NO_CLASS)),
   (JH5P_ROOT, j2cOk (lib.constVal NativeSym.H5P_ROOT)),
   (JH5P_OBJECT_CREATE, j2cOk (lib.constVal NativeSym.H5P_OBJECT_CREATE)),
   (JH5P_DATASET_ACCESS, j2cOk (lib.constVal NativeSym.H5P_DATASET_ACCESS)),
   (JH5P_DATASET_ACCESS_DEFAULT, j2cOk (lib.constVal NativeSym.H5P_DATASET_ACCESS_DEFAULT)),
   (JH5P_FILE_MOUNT, j2cOk (lib.constVal NativeSym.H5P_FILE_MOUNT)),
   (JH5P_FILE_MOUNT_DEFAULT, j2cOk (lib.constVal NativeSym.H5P_FILE_MOUNT_DEFAULT)),
   (JH5P_GROUP_CREATE, j2cOk (lib.constVal NativeSym.H5P_GROUP_CREATE)),
   (JH5P_GROUP_CREATE_DEFAULT, j2cOk (lib.constVal NativeSym.H5P_GROUP_CREATE_DEFAULT)),
   (JH5P_GROUP_ACCESS, j2cOk (lib.constVal NativeSym.H5P_GROUP_ACCESS)),
   (JH5P_GROUP_ACCESS_DEFAULT, j2cOk (lib.constVal NativeSym.H5P_GROUP_ACCESS_DEFAULT)),
   (JH5P_DATATYPE_CREATE, j2cOk (lib.constVal NativeSym.H5P_DATATYPE_CREATE)),
   (JH5P_DATATYPE_CREATE_DEFAULT, j2cOk (lib.constVal NativeSym.H5P_DATATYPE_CREATE_DEFAULT)),
   (JH5P_DATATYPE_ACCESS, j2cOk (lib.constVal NativeSym.H5P_DATATYPE_ACCESS)),
   (JH5P_DATATYPE_ACCESS_DEFAULT, j2cOk (lib.constVal NativeSym.H5P_DATATYPE_ACCESS_DEFAULT)),
   (JH5P_STRING_CREATE, j2cOk (lib.constVal NativeSym.H5P_STRING_CREATE)),
   (JH5P_ATTRIBUTE_CREATE, j2cOk (lib.constVal NativeSym.H5P_ATTRIBUTE_CREATE)),
   (JH5P_ATTRIBUTE_CREATE_DEFAULT, j2cOk (lib.constVal NativeSym.H5P_ATTRIBUTE_CREATE_DEFAULT)),
   (JH5P_OBJECT_COPY, j2cOk (lib.constVal NativeSym.H5P_OBJECT_COPY)),
   (JH5P_OBJECT_COPY_DEFAULT, j2cOk (lib.constVal NativeSym.H5P_OBJECT_COPY_DEFAULT)),
   (JH5P_LINK_CREATE, j2cOk (lib.constVal NativeSym.H5P_LINK_CREATE)),
   (JH5P_LINK_CREATE_DEFAULT, j2cOk (lib.constVal NativeSym.H5P_LINK_CREATE_DEFAULT)),
   (JH5P_LINK_ACCESS, j2cOk (lib.constVal NativeSym.H5P_LINK_ACCESS)),
   (JH5P_LINK_ACCESS_DEFAULT, j2cOk (lib.constVal NativeSym.H5P_LINK_ACCESS_DEFAULT)),
   (JH5R_BADTYPE, j2cOk (lib.constVal NativeSym.H5R_BADTYPE)),
   (JH5R_DATASET_REGION, j2cOk (lib.constVal NativeSym.H5R_DATASET_REGION)),
   (JH5R_MAXTYPE, j2cOk (lib.constVal NativeSym.H5R_MAXTYPE)),
   (JH5R_OBJ_REF_BUF_SIZE, j2cOk (lib.constVal NativeSym.H5R_OBJ_REF_BUF_SIZE)),
   (JH5R_OBJECT, j2cOk (lib.constVal NativeSym.H5R_OBJECT)),
   (JH5S_ALL, j2cOk (lib.constVal NativeSym.H5S_ALL)),
   (JH5S_MAX_RANK, j2cOk (lib.constVal NativeSym.H5S_MAX_RANK)),
   (JH5S_NO_CLASS, j2cOk (lib.constVal NativeSym.H5S_NO_CLASS)),
   (JH5S_NULL, j2cOk (lib.constVal NativeSym.H5S_NULL)),
   (JH5S_SCALAR, j2cOk (lib.constVal NativeSym.H5S_SCALAR)),
   (JH5S_SEL_ALL, j2cOk (lib.constVal NativeSym.H5S_SEL_ALL)),
   (JH5S_SEL_ERROR, j2cOk (lib.constVal NativeSym.H5S_SEL_ERROR)),
   (JH5S_SEL_HYPERSLABS, j2cOk (lib.constVal NativeSym.H5S_SEL_HYPERSLABS)),
   (JH5S_SEL_N, j2cOk (lib.constVal NativeSym.H5S_SEL_N)),
   (JH5S_SEL_NONE, j2cOk (lib.constVal NativeSym.H5S_SEL_NONE)),
   (JH5S_SEL_POINTS, j2cOk (lib.constVal NativeSym.H5S_SEL_POINTS)),
   (JH5S_SELECT_AND, j2cOk (lib.constVal NativeSym.H5S_SELECT_AND)),
   (JH5S_SELECT_APPEND, j2cOk (lib.constVal NativeSym.H5S_SELECT_APPEND)),
   (JH5S_SELECT_INVALID, j2cOk (lib.constVal NativeSym.H5S_SELECT_INVALID)),
   (JH5S_SELECT_NOOP, j2cOk (lib.constVal NativeSym.H5S_SELECT_NOOP)),
   (JH5S_SELECT_NOTA, j2cOk (lib.constVal NativeSym.H5S_SELECT_NOTA)),
   (JH5S_SELECT_NOTB, j2cOk (lib.constVal NativeSym.H5S_SELECT_NOTB)),
   (JH5S_SELECT_OR, j2cOk (lib.constVal NativeSym.H5S_SELECT_OR)),
   (JH5S_SELECT_PREPEND, j2cOk (lib.constVal NativeSym.H5S_SELECT_PREPEND)),
   (JH5S_SELECT_SET, j2cOk (lib.constVal NativeSym.H5S_SELECT_SET)),
   (JH5S_SELECT_XOR, j2cOk (lib.constVal NativeSym.H5S_SELECT_XOR)),
   (JH5S_SIMPLE, j2cOk (lib.constVal NativeSym.H5S_SIMPLE)),
   (JH5S_UNLIMITED, j2cOk (int32OfUInt64 lib.H5S_UNLIMITED)),
   (JH5T_ALPHA_B16, j2cOk (lib.constVal NativeSym.H5T_ALPHA_B16)),
   (JH5T_ALPHA_B32, j2cOk (lib.constVal NativeSym.H5T_ALPHA_B32)),
   (JH5T_ALPHA_B64, j2cOk (lib.constVal NativeSym.H5T_ALPHA_B64)),
   (JH5T_ALPHA_B8, j2cOk (lib.constVal NativeSym.H5T_ALPHA_B8)),
   (JH5T_ALPHA_F32, j2cOk (lib.constVal NativeSym.H5T_ALPHA_F32)),
   (JH5T_ALPHA_F64, j2cOk (lib.constVal NativeSym.H5T_ALPHA_F64)),
   (JH5T_ALPHA_I16, j2cOk (lib.constVal NativeSym.H5T_ALPHA_I16)),
   (JH5T_ALPHA_I32, j2cOk (lib.constVal NativeSym.H5T_ALPHA_I32)),
   (JH5T_ALPHA_I64, j2cOk (lib.constVal NativeSym.H5T_ALPHA_I64)),
   (JH5T_ALPHA_I8, j2cOk (lib.constVal NativeSym.H5T_ALPHA_I8)),
   (JH5T_ALPHA_U16, j2cOk (lib.constVal NativeSym.H5T_ALPHA_U16)),
   (JH5T_ALPHA_U32, j2cOk (lib.constVal NativeSym.H5T_ALPHA_U32)),
   (JH5T_ALPHA_U64, j2cOk (lib.constVal NativeSym.H5T_ALPHA_U64)),
   (JH5T_ALPHA_U8, j2cOk (lib.constVal NativeSym.H5T_ALPHA_U8)),
   (JH5T_ARRAY, j2cOk (lib.constVal NativeSym.H5T_ARRAY)),
   (JH5T_BITFIELD, j2cOk (lib.constVal NativeSym.H5T_BITFIELD)),
   (JH5T_BKG_NO, j2cOk (lib.constVal NativeSym.H5T_BKG_NO)),
   (JH5T_BKG_YES, j2cOk (lib.constVal NativeSym.H5T_BKG_YES)),
   (JH5T_C_S1, j2cOk (lib.constVal NativeSym.H5T_C_S1)),
   (JH5T_COMPOUND, j2cOk (lib.constVal NativeSym.H5T_COMPOUND)),
   (JH5T_CONV_CONV, j2cOk (lib.constVal NativeSym.H5T_CONV_CONV)),
   (JH5T_CONV_FREE, j2cOk (lib.constVal NativeSym.H5T_CONV_FREE)),
   (JH5T_CONV_INIT, j2cOk (lib.constVal NativeSym.H5T_CONV_INIT)),
   (JH5T_CSET_ASCII, j2cOk (lib.constVal NativeSym.H5T_CSET_ASCII)),
   (JH5T_CSET_ERROR, j2cOk (lib.constVal NativeSym.H5T_CSET_ERROR)),
   (JH5T_CSET_RESERVED_10, j2cOk (lib.constVal NativeSym.H5T_CSET_RESERVED_10)),
   (JH5T_CSET_RESERVED_11, j2cOk (lib.constVal NativeSym.H5T_CSET_RESERVED_11)),
   (JH5T_CSET_RESERVED_12, j2cOk (lib.constVal NativeSym.H5T_CSET_RESERVED_12)),
   (JH5T_CSET_RESERVED_13, j2cOk (lib.constVal NativeSym.H5T_CSET_RESERVED_13)),
   (JH5T_CSET_RESERVED_14, j2cOk (lib.constVal NativeSym.H5T_CSET_RESERVED_14)),
   (JH5T_CSET_RESERVED_15, j2cOk (lib.constVal NativeSym.H5T_CSET_RESERVED_15)),
   (JH5T_CSET_RESERVED_2, j2cOk (lib.constVal NativeSym.H5T_CSET_RESERVED_2)),
   (JH5T_CSET_RESERVED_3, j2cOk (lib.constVal NativeSym.H5T_CSET_RESERVED_3)),
   (JH5T_CSET_RESERVED_4, j2cOk (lib.constVal NativeSym.H5T_CSET_RESERVED_4)),
   (JH5T_CSET_RESERVED_5, j2cOk (lib.constVal NativeSym.H5T_CSET_RESERVED_5)),
   (JH5T_CSET_RESERVED_6, j2cOk (lib.constVal NativeSym.H5T_CSET_RESERVED_6)),
   (JH5T_CSET_RESERVED_7, j2cOk (lib.constVal NativeSym.H5T_CSET_RESERVED_7)),
   (JH5T_CSET_RESERVED_8, j2cOk (lib.constVal NativeSym.H5T_CSET_RESERVED_8)),
   (JH5T_CSET_RESERVED_9, j2cOk (lib.constVal NativeSym.H5T_CSET_RESERVED_9)),
   (JH5T_DIR_ASCEND, j2cOk (lib.constVal NativeSym.H5T_DIR_ASCEND)),
   (JH5T_DIR_DEFAULT, j2cOk (lib.constVal NativeSym.H5T_DIR_DEFAULT)),
   (JH5T_DIR_DESCEND, j2cOk (lib.constVal NativeSym.H5T_DIR_DESCEND)),
   (JH5T_ENUM, j2cOk (lib.constVal NativeSym.H5T_ENUM)),
   (JH5T_FLOAT, j2cOk (lib.constVal NativeSym.H5T_FLOAT)),
   (JH5T_FORTRAN_S1, j2cOk (lib.constVal NativeSym.H5T_FORTRAN_S1)),
   (JH5T_IEEE_F32BE, j2cOk (lib.constVal NativeSym.H5T_IEEE_F32BE)),
   (JH5T_IEEE_F32LE, j2cOk (lib.constVal NativeSym.H5T_IEEE_F32LE)),
   (JH5T_IEEE_F64BE, j2cOk (lib.constVal NativeSym.H5T_IEEE_F64BE)),
   (JH5T_IEEE_F64LE, j2cOk (lib.constVal NativeSym.H5T_IEEE_F64LE)),
   (JH5T_INTEGER, j2cOk (lib.constVal NativeSym.H5T_INTEGER)),
   (JH5T_INTEL_B16, j2cOk (lib.constVal NativeSym.H5T_INTEL_B16)),
   (JH5T_INTEL_B32, j2cOk (lib.constVal NativeSym.H5T_INTEL_B32)),
   (JH5T_INTEL_B64, j2cOk (lib.constVal NativeSym.H5T_INTEL_B64)),
   (JH5T_INTEL_B8, j2cOk (lib.constVal NativeSym.H5T_INTEL_B8)),
   (JH5T_INTEL_F32, j2cOk (lib.constVal NativeSym.H5T_INTEL_F32)),
   (JH5T_INTEL_F64, j2cOk (lib.constVal NativeSym.H5T_INTEL_F64)),
   (JH5T_INTEL_I16, j2cOk (lib.constVal NativeSym.H5T_INTEL_I16)),
   (JH5T_INTEL_I32, j2cOk (lib.constVal NativeSym.H5T_INTEL_I32)),
   (JH5T_INTEL_I64, j2cOk (lib.constVal NativeSym.H5T_INTEL_I64)),
   (JH5T_INTEL_I8, j2cOk (lib.constVal NativeSym.H5T_INTEL_I8)),
   (JH5T_INTEL_U16, j2cOk (lib.constVal NativeSym.H5T_INTEL_U16)),
   (JH5T_INTEL_U32, j2cOk (lib.constVal NativeSym.H5T_INTEL_U32)),
   (JH5T_INTEL_U64, j2cOk (lib.constVal NativeSym.H5T_INTEL_U64)),
   (JH5T_INTEL_U8, j2cOk (lib.constVal NativeSym.H5T_INTEL_U8)),
   (JH5T_MIPS_B16, j2cOk (lib.constVal NativeSym.H5T_MIPS_B16)),
   (JH5T_MIPS_B32, j2cOk (lib.constVal NativeSym.H5T_MIPS_B32)),
   (JH5T_MIPS_B64, j2cOk (lib.constVal NativeSym.H5T_MIPS_B64)),
   (JH5T_MIPS_B8, j2cOk (lib.constVal NativeSym.H5T_MIPS_B8)),
   (JH5T_MIPS_F32, j2cOk (lib.constVal NativeSym.H5T_MIPS_F32)),
   (JH5T_MIPS_F64, j2cOk (lib.constVal NativeSym.H5T_MIPS_F64)),
   (JH5T_MIPS_I16, j2cOk (lib.constVal NativeSym.H5T_MIPS_I16)),
   (JH5T_MIPS_I32, j2cOk (lib.constVal NativeSym.H5T_MIPS_I32)),
   (JH5T_MIPS_I64, j2cOk (lib.constVal NativeSym.H5T_MIPS_I64)),
   (JH5T_MIPS_I8, j2cOk (lib.constVal NativeSym.H5T_MIPS_I8)),
   (JH5T_MIPS_U16, j2cOk (lib.constVal NativeSym.H5T_MIPS_U16)),
   (JH5T_MIPS_U32, j2cOk (lib.constVal NativeSym.H5T_MIPS_U32)),
   (JH5T_MIPS_U64, j2cOk (lib.constVal NativeSym.H5T_MIPS_U64)),
   (JH5T_MIPS_U8, j2cOk (lib.constVal NativeSym.H5T_MIPS_U8)),
   (JH5T_NATIVE_B16, j2cOk (lib.constVal NativeSym.H5T_NATIVE_B16)),
   (JH5T_NATIVE_B32, j2cOk (lib.constVal NativeSym.H5T_NATIVE_B32)),
   (JH5T_NATIVE_B64, j2cOk (lib.constVal NativeSym.H5T_NATIVE_B64)),
   (JH5T_NATIVE_B8, j2cOk (lib.constVal NativeSym.H5T_NATIVE_B8)),
   (JH5T_NATIVE_CHAR, j2cOk (lib.constVal NativeSym.H5T_NATIVE_CHAR)),
   (JH5T_NATIVE_DOUBLE, j2cOk (lib.constVal NativeSym.H5T_NATIVE_DOUBLE)),
   (JH5T_NATIVE_FLOAT, j2cOk (lib.constVal NativeSym.H5T_NATIVE_FLOAT)),
   (JH5T_NATIVE_HADDR, j2cOk (lib.constVal NativeSym.H5T_NATIVE_HADDR)),
   (JH5T_NATIVE_HBOOL, j2cOk (lib.constVal NativeSym.H5T_NATIVE_HBOOL)),
   (JH5T_NATIVE_HERR, j2cOk (lib.constVal NativeSym.H5T_NATIVE_HERR)),
   (JH5T_NATIVE_HSIZE, j2cOk (lib.constVal NativeSym.H5T_NATIVE_HSIZE)),
   (JH5T_NATIVE_HSSIZE, j2cOk (lib.constVal NativeSym.H5T_NATIVE_HSSIZE)),
   (JH5T_NATIVE_INT, j2cOk (lib.constVal NativeSym.H5T_NATIVE_INT)),
   (JH5T_NATIVE_INT_FAST16, j2cOk (lib.constVal NativeSym.H5T_NATIVE_INT_FAST16)),
   (JH5T_NATIVE_INT_FAST32, j2cOk (lib.constVal NativeSym.H5T_NATIVE_INT_FAST32)),
   (JH5T_NATIVE_INT_FAST64, j2cOk (lib.constVal NativeSym.H5T_NATIVE_INT_FAST64)),
   (JH5T_NATIVE_INT_FAST8, j2cOk (lib.constVal NativeSym.H5T_NATIVE_INT_FAST8)),
   (JH5T_NATIVE_INT_LEAST16, j2cOk (lib.constVal NativeSym.H5T_NATIVE_INT_LEAST16)),
   (JH5T_NATIVE_INT_LEAST32, j2cOk (lib.constVal NativeSym.H5T_NATIVE_INT_LEAST32)),
   (JH5T_NATIVE_INT_LEAST64, j2cOk (lib.constVal NativeSym.H5T_NATIVE_INT_LEAST64)),
   (JH5T_NATIVE_INT_LEAST8, j2cOk (lib.constVal NativeSym.H5T_NATIVE_INT_LEAST8)),
   (JH5T_NATIVE_INT16, j2cOk (lib.constVal NativeSym.H5T_NATIVE_INT16)),
   (JH5T_NATIVE_INT32, j2cOk (lib.constVal NativeSym.H5T_NATIVE_INT32)),
   (JH5T_NATIVE_INT64, j2cOk (lib.constVal NativeSym.H5T_NATIVE_INT64)),
   (JH5T_NATIVE_INT8, j2cOk (lib.constVal NativeSym.H5T_NATIVE_INT8)),
   (JH5T_NATIVE_LDOUBLE, j2cOk (lib.constVal NativeSym.H5T_NATIVE_LDOUBLE)),
   (JH5T_NATIVE_LLONG, j2cOk (lib.constVal NativeSym.H5T_NATIVE_LLONG)),
   (JH5T_NATIVE_LONG, j2cOk (lib.constVal NativeSym.H5T_NATIVE_LONG)),
   (JH5T_NATIVE_OPAQUE_c, j2cOk (lib.constVal NativeSym.H5T_NATIVE_OPAQUE_c)),
   (JH5T_NATIVE_SCHAR, j2cOk (lib.constVal NativeSym.H5T_NATIVE_SCHAR)),
   (JH5T_NATIVE_SHORT, j2cOk (lib.constVal NativeSym.H5T_NATIVE_SHORT)),
   (JH5T_NATIVE_UCHAR, j2cOk (lib.constVal NativeSym.H5T_NATIVE_UCHAR)),
   (JH5T_NATIVE_UINT, j2cOk (lib.constVal NativeSym.H5T_NATIVE_UINT)),
   (JH5T_NATIVE_UINT_FAST16, j2cOk (lib.constVal NativeSym.H5T_NATIVE_UINT_FAST16)),
   (JH5T_NATIVE_UINT_FAST32, j2cOk (lib.constVal NativeSym.H5T_NATIVE_UINT_FAST32)),
   (JH5T_NATIVE_UINT_FAST64, j2cOk (lib.constVal NativeSym.H5T_NATIVE_UINT_FAST64)),
   (JH5T_NATIVE_UINT_FAST8, j2cOk (lib.constVal NativeSym.H5T_NATIVE_UINT_FAST8)),
   (JH5T_NATIVE_UINT_LEAST16, j2cOk (lib.constVal NativeSym.H5T_NATIVE_UINT_LEAST16)),
   (JH5T_NATIVE_UINT_LEAST32, j2cOk (lib.constVal NativeSym.H5T_NATIVE_UINT_LEAST32)),
   (JH5T_NATIVE_UINT_LEAST64, j2cOk (lib.constVal NativeSym.H5T_NATIVE_UINT_LEAST64)),
   (JH5T_NATIVE_UINT_LEAST8, j2cOk (lib.constVal NativeSym.H5T_NATIVE_UINT_LEAST8)),
   (JH5T_NATIVE_UINT16, j2cOk (lib.constVal NativeSym.H5T_NATIVE_UINT16)),
   (JH5T_NATIVE_UINT32, j2cOk (lib.constVal NativeSym.H5T_NATIVE_UINT32)),
   (JH5T_NATIVE_UINT64, j2cOk (lib.constVal NativeSym.H5T_NATIVE_UINT64)),
   (JH5T_NATIVE_UINT8, j2cOk (lib.constVal NativeSym.H5T_NATIVE_UINT8)),
   (JH5T_NATIVE_ULLONG, j2cOk (lib.constVal NativeSym.H5T_NATIVE_ULLONG)),
   (JH5T_NATIVE_ULONG, j2cOk (lib.constVal NativeSym.H5T_NATIVE_ULONG)),
   (JH5T_NATIVE_USHORT, j2cOk (lib.constVal NativeSym.H5T_NATIVE_USHORT)),
   (JH5T_NCLASSES, j2cOk (lib.constVal NativeSym.H5T_NCLASSES)),
   (JH5T_NO_CLASS, j2cOk (lib.constVal NativeSym.H5T_NO_CLASS)),
   (JH5T_NORM_ERROR, j2cOk (lib.constVal NativeSym.H5T_NORM_ERROR)),
   (JH5T_NORM_IMPLIED, j2cOk (lib.constVal NativeSym.H5T_NORM_IMPLIED)),
   (JH5T_NORM_MSBSET, j2cOk (lib.constVal NativeSym.H5T_NORM_MSBSET)),
   (JH5T_NORM_NONE, j2cOk (lib.constVal NativeSym.H5T_NORM_NONE)),
   (JH5T_NPAD, j2cOk (lib.constVal NativeSym.H5T_NPAD)),
   (JH5T_NSGN, j2cOk (lib.constVal NativeSym.H5T_NSGN)),
   (JH5T_OPAQUE_c, j2cOk (lib.constVal NativeSym.H5T_OPAQUE_c)),
   (JH5T_OPAQUE_TAG_MAX, j2cOk (lib.constVal NativeSym.H5T_OPAQUE_TAG_MAX)),
   (JH5T_ORDER_BE, j2cOk (lib.constVal NativeSym.H5T_ORDER_BE)),
   (JH5T_ORDER_ERROR, j2cOk (lib.constVal NativeSym.H5T_ORDER_ERROR)),
   (JH5T_ORDER_LE, j2cOk (lib.constVal NativeSym.H5T_ORDER_LE)),
   (JH5T_ORDER_NONE, j2cOk (lib.constVal NativeSym.H5T_ORDER_NONE)),
   (JH5T_ORDER_VAX, j2cOk (lib.constVal NativeSym.H5T_ORDER_VAX)),
   (JH5T_PAD_BACKGROUND, j2cOk (lib.constVal NativeSym.H5T_PAD_BACKGROUND)),
   (JH5T_PAD_ERROR, j2cOk (lib.constVal NativeSym.H5T_PAD_ERROR)),
   (JH5T_PAD_ONE, j2cOk (lib.constVal NativeSym.H5T_PAD_ONE)),
   (JH5T_PAD_ZERO, j2cOk (lib.constVal NativeSym.H5T_PAD_ZERO)),
   (JH5T_PERS_DONTCARE, j2cOk (lib.constVal NativeSym.H5T_PERS_DONTCARE)),
   (JH5T_PERS_HARD, j2cOk (lib.constVal NativeSym.H5T_PERS_HARD)),
   (JH5T_PERS_SOFT, j2cOk (lib.constVal NativeSym.H5T_PERS_SOFT)),
   (JH5T_REFERENCE, j2cOk (lib.constVal NativeSym.H5T_REFERENCE)),
   (JH5T_SGN_2, j2cOk (lib.constVal NativeSym.H5T_SGN_2)),
   (JH5T_SGN_ERROR, j2cOk (lib.constVal NativeSym.H5T_SGN_ERROR)),
   (JH5T_SGN_NONE, j2cOk (lib.constVal NativeSym.H5T_SGN_NONE)),
   (JH5T_STD_B16BE, j2cOk (lib.constVal NativeSym.H5T_STD_B16BE)),
   (JH5T_STD_B16LE, j2cOk (lib.constVal NativeSym.H5T_STD_B16LE)),
   (JH5T_STD_B32BE, j2cOk (lib.constVal NativeSym.H5T_STD_B32BE)),
   (JH5T_STD_B32LE, j2cOk (lib.constVal NativeSym.H5T_STD_B32LE)),
   (JH5T_STD_B64BE, j2cOk (lib.constVal NativeSym.H5T_STD_B64BE)),
   (JH5T_STD_B64LE, j2cOk (lib.constVal NativeSym.H5T_STD_B64LE)),
   (JH5T_STD_B8BE, j2cOk (lib.constVal NativeSym.H5T_STD_B8BE)),
   (JH5T_STD_B8LE, j2cOk (lib.constVal NativeSym.H5T_STD_B8LE)),
   (JH5T_STD_I16BE, j2cOk (lib.constVal NativeSym.H5T_STD_I16BE)),
   (JH5T_STD_I16LE, j2cOk (lib.constVal NativeSym.H5T_STD_I16LE)),
   (JH5T_STD_I32BE, j2cOk (lib.constVal NativeSym.H5T_STD_I32BE)),
   (JH5T_STD_I32LE, j2cOk (lib.constVal NativeSym.H5T_STD_I32LE)),
   (JH5T_STD_I64BE, j2cOk (lib.constVal NativeSym.H5T_STD_I64BE)),
   (JH5T_STD_I64LE, j2cOk (lib.constVal NativeSym.H5T_STD_I64LE)),
   (JH5T_STD_I8BE, j2cOk (lib.constVal NativeSym.H5T_STD_I8BE)),
   (JH5T_STD_I8LE, j2cOk (lib.constVal NativeSym.H5T_STD_I8LE)),
   (JH5T_STD_REF_DSETREG, j2cOk (lib.constVal NativeSym.H5T_STD_REF_DSETREG)),
   (JH5T_STD_REF_OBJ, j2cOk (lib.constVal NativeSym.H5T_STD_REF_OBJ)),
   (JH5T_STD_U16BE, j2cOk (lib.constVal NativeSym.H5T_STD_U16BE)),
   (JH5T_STD_U16LE, j2cOk (lib.constVal NativeSym.H5T_STD_U16LE)),
   (JH5T_STD_U32BE, j2cOk (lib.constVal NativeSym.H5T_STD_U32BE)),
   (JH5T_STD_U32LE, j2cOk (lib.constVal NativeSym.H5T_STD_U32LE)),
   (JH5T_STD_U64BE, j2cOk (lib.constVal NativeSym.H5T_STD_U64BE)),
   (JH5T_STD_U64LE, j2cOk (lib.constVal NativeSym.H5T_STD_U64LE)),
   (JH5T_STD_U8BE, j2cOk (lib.constVal NativeSym.H5T_STD_U8BE)),
   (JH5T_STD_U8LE, j2cOk (lib.constVal NativeSym.H5T_STD_U8LE)),
   (JH5T_STR_ERROR, j2cOk (lib.constVal NativeSym.H5T_STR_ERROR)),
   (JH5T_STR_NULLPAD, j2cOk (lib.constVal NativeSym.H5T_STR_NULLPAD)),
   (JH5T_STR_NULLTERM, j2cOk (lib.constVal NativeSym.H5T_STR_NULLTERM)),
   (JH5T_STR_RESERVED_10, j2cOk (lib.constVal NativeSym.H5T_STR_RESERVED_10)),
   (JH5T_STR_RESERVED_11, j2cOk (lib.constVal NativeSym.H5T_STR_RESERVED_11)),
   (JH5T_STR_RESERVED_12, j2cOk (lib.constVal NativeSym.H5T_STR_RESERVED_12)),
   (JH5T_STR_RESERVED_13, j2cOk (lib.constVal NativeSym.H5T_STR_RESERVED_13)),
   (JH5T_STR_RESERVED_14, j2cOk (lib.constVal NativeSym.H5T_STR_RESERVED_14)),
   (JH5T_STR_RESERVED_15, j2cOk (lib.constVal NativeSym.H5T_STR_RESERVED_15)),
   (JH5T_STR_RESERVED_3, j2cOk (lib.constVal NativeSym.H5T_STR_RESERVED_3)),
   (JH5T_STR_RESERVED_4, j2cOk (lib.constVal NativeSym.H5T_STR_RESERVED_4)),
   (JH5T_STR_RESERVED_5, j2cOk (lib.constVal NativeSym.H5T_STR_RESERVED_5)),
   (JH5T_STR_RESERVED_6, j2cOk (lib.constVal NativeSym.H5T_STR_RESERVED_6)),
   (JH5T_STR_RESERVED_7, j2cOk (lib.constVal NativeSym.H5T_STR_RESERVED_7)),
   (JH5T_STR_RESERVED_8, j2cOk (lib.constVal NativeSym.H5T_STR_RESERVED_8)),
   (JH5T_STR_RESERVED_9, j2cOk (lib.constVal NativeSym.H5T_STR_RESERVED_9)),
   (JH5T_STR_SPACEPAD, j2cOk (lib.constVal NativeSym.H5T_STR_SPACEPAD)),
   (JH5T_STRING, j2cOk (lib.constVal NativeSym.H5T_STRING)),
   (JH5T_TIME, j2cOk (lib.constVal NativeSym.H5T_TIME)),
   (JH5T_UNIX_D32BE, j2cOk (lib.constVal NativeSym.H5T_UNIX_D32BE)),
   (JH5T_UNIX_D32LE, j2cOk (lib.constVal NativeSym.H5T_UNIX_D32LE)),
   (JH5T_UNIX_D64BE, j2cOk (lib.constVal NativeSym.H5T_UNIX_D64BE)),
   (JH5T_UNIX_D64LE, j2cOk (lib.constVal NativeSym.H5T_UNIX_D64LE)),
   (JH5T_VARIABLE, j2cOk (lib.constVal NativeSym.H5T_VARIABLE)),
   (JH5T_VLEN, j2cOk (lib.constVal NativeSym.H5T_VLEN)),
   (JH5Z_CB_CONT, j2cOk (lib.constVal NativeSym.H5Z_CB_CONT)),
   (JH5Z_CB_ERROR, j2cOk (lib.constVal NativeSym.H5Z_CB_ERROR)),
   (JH5Z_CB_FAIL, j2cOk (lib.constVal NativeSym.H5Z_CB_FAIL)),
   (JH5Z_CB_NO, j2cOk (lib.constVal NativeSym.H5Z_CB_NO)),
   (JH5Z_DISABLE_EDC, j2cOk (lib.constVal NativeSym.H5Z_DISABLE_EDC)),
   (JH5Z_ENABLE_EDC, j2cOk (lib.constVal NativeSym.H5Z_ENABLE_EDC)),
   (JH5Z_ERROR_EDC, j2cOk (lib.constVal NativeSym.H5Z_ERROR_EDC)),
   (JH5Z_FILTER_DEFLATE, j2cOk (lib.constVal NativeSym.H5Z_FILTER_DEFLATE)),
   (JH5Z_FILTER_ERROR, j2cOk (lib.constVal NativeSym.H5Z_FILTER_ERROR)),
   (JH5Z_FILTER_FLETCHER32, j2cOk (lib.constVal NativeSym.H5Z_FILTER_FLETCHER32)),
   (JH5Z_FILTER_MAX, j2cOk (lib.constVal NativeSym.H5Z_FILTER_MAX)),
   (JH5Z_FILTER_NONE, j2cOk (lib.constVal NativeSym.H5Z_FILTER_NONE)),
   (JH5Z_FILTER_RESERVED, j2cOk (lib.constVal NativeSym.H5Z_FILTER_RESERVED)),
   (JH5Z_FILTER_SHUFFLE, j2cOk (lib.constVal NativeSym.H5Z_FILTER_SHUFFLE)),
   (JH5Z_FILTER_SZIP, j2cOk (lib.constVal NativeSym.H5Z_FILTER_SZIP)),
   (JH5Z_FLAG_DEFMASK, j2cOk (lib.constVal NativeSym.H5Z_FLAG_DEFMASK)),
   (JH5Z_FLAG_INVMASK, j2cOk (lib.constVal NativeSym.H5Z_FLAG_INVMASK)),
   (JH5Z_FLAG_MANDATORY, j2cOk (lib.constVal NativeSym.H5Z_FLAG_MANDATORY)),
   (JH5Z_FLAG_OPTIONAL, j2cOk (lib.constVal NativeSym.H5Z_FLAG_OPTIONAL)),
   (JH5Z_FLAG_REVERSE, j2cOk (lib.constVal NativeSym.H5Z_FLAG_REVERSE)),
   (JH5Z_FLAG_SKIP_EDC, j2cOk (lib.constVal NativeSym.H5Z_FLAG_SKIP_EDC)),
   (JH5Z_MAX_NFILTERS, j2cOk (lib.constVal NativeSym.H5Z_MAX_NFILTERS)),
   (JH5Z_NO_EDC, j2cOk (lib.constVal NativeSym.H5Z_NO_EDC)),
   (JH5Z_FILTER_CONFIG_ENCODE_ENABLED, j2cOk (lib.constVal NativeSym.H5Z_FILTER_CONFIG_ENCODE_ENABLED)),
   (JH5Z_FILTER_CONFIG_DECODE_ENABLED, j2cOk (lib.constVal NativeSym.H5Z_FILTER_CONFIG_DECODE_ENABLED))]

/-- `Java_ncsa_hdf_hdf5lib_H5_J2C`: first-match dispatch over the switch table
(case labels are distinct, so first match is the only match); the default branch
calls `h5illegalConstantError(env)` and returns -1, exactly as in the source. -/
def J2C (env : JNIEnv) (lib : NativeLib) (c : Int) : J2COutcome :=
  assocLookupD (j2cTable lib) c (j2cDefault env)

/-- The known identifier set: the case labels of the J2C switch, in switch order. -/
def knownIdList : List Int :=
  [JH5_SZIP_MAX_PIXELS_PER_BLOCK,
   JH5_SZIP_NN_OPTION_MASK,
   JH5_SZIP_EC_OPTION_MASK,
   JH5_SZIP_ALLOW_K13_OPTION_MASK,
   JH5_SZIP_CHIP_OPTION_MASK,
   JH5D_ALLOC_TIME_DEFAULT,
   JH5D_ALLOC_TIME_EARLY,
   JH5D_ALLOC_TIME_ERROR,
   JH5D_ALLOC_TIME_INCR,
   JH5D_ALLOC_TIME_LATE,
   JH5D_CHUNKED,
   JH5D_COMPACT,
   JH5D_CONTIGUOUS,
   JH5D_FILL_TIME_ALLOC,
   JH5D_FILL_TIME_ERROR,
   JH5D_FILL_TIME_NEVER,
   JH5D_FILL_VALUE_DEFAULT,
   JH5D_FILL_VALUE_ERROR,
   JH5D_FILL_VALUE_UNDEFINED,
   JH5D_FILL_VALUE_USER_DEFINED,
   JH5D_LAYOUT_ERROR,
   JH5D_NLAYOUTS,
   JH5D_SPACE_STATUS_ALLOCATED,
   JH5D_SPACE_STATUS_ERROR,
   JH5D_SPACE_STATUS_NOT_ALLOCATED,
   JH5D_SPACE_STATUS_PART_ALLOCATED,
   JH5E_ALIGNMENT,
   JH5E_ALREADYEXISTS,
   JH5E_ALREADYINIT,
   JH5E_ARGS,
   JH5E_ATOM,
   JH5E_ATTR,
   JH5E_BADATOM,
   JH5E_BADFILE,
   JH5E_BADGROUP,
   JH5E_BADMESG,
   JH5E_BADRANGE,
   JH5E_BADSELECT,
   JH5E_BADSIZE,
   JH5E_BADTYPE,
   JH5E_BADVALUE,
   JH5E_BTREE,
   JH5E_CACHE,
   JH5E_CALLBACK,
   JH5E_CANAPPLY,
   JH5E_CANTCLIP,
   JH5E_CANTCLOSEFILE,
   JH5E_CANTCONVERT,
   JH5E_CANTCOPY,
   JH5E_CANTCOUNT,
   JH5E_CANTCREATE,
   JH5E_CANTDEC,
   JH5E_CANTDECODE,
   JH5E_CANTDELETE,
   JH5E_CANTENCODE,
   JH5E_CANTFLUSH,
   JH5E_CANTFREE,
   JH5E_CANTGET,
   JH5E_CANTINC,
   JH5E_CANTINIT,
   JH5E_CANTINSERT,
   JH5E_CANTLIST,
   JH5E_CANTLOAD,
   JH5E_CANTLOCK,
   JH5E_CANTNEXT,
   JH5E_CANTOPENFILE,
   JH5E_CANTOPENOBJ,
   JH5E_CANTREGISTER,
   JH5E_CANTRELEASE,
   JH5E_CANTSELECT,
   JH5E_CANTSET,
   JH5E_CANTSPLIT,
   JH5E_CANTUNLOCK,
   JH5E_CLOSEERROR,
   JH5E_COMPLEN,
   JH5E_DATASET,
   JH5E_DATASPACE,
   JH5E_DATATYPE,
   JH5E_DUPCLASS,
   JH5E_EFL,
   JH5E_EXISTS,
   JH5E_FCNTL,
   JH5E_FILE,
   JH5E_FILEEXISTS,
   JH5E_FILEOPEN,
   JH5E_FUNC,
   JH5E_HEAP,
   JH5E_INTERNAL,
   JH5E_IO_c,
   JH5E_LINK,
   JH5E_LINKCOUNT,
   JH5E_MOUNT,
   JH5E_MPI,
   JH5E_MPIERRSTR,
   JH5E_NOFILTER,
   JH5E_NOIDS,
   JH5E_NONE_MAJOR,
   JH5E_NONE_MINOR,
   JH5E_NOSPACE,
   JH5E_NOTCACHED,
   JH5E_NOTFOUND,
   JH5E_NOTHDF5,
   JH5E_OHDR,
   JH5E_OVERFLOW,
   JH5E_PLINE,
   JH5E_PLIST,
   JH5E_PROTECT,
   JH5E_READERROR,
   JH5E_REFERENCE,
   JH5E_RESOURCE,
   JH5E_RS,
   JH5E_SEEKERROR,
   JH5E_SETLOCAL,
   JH5E_STORAGE,
   JH5E_SYM,
   JH5E_TRUNCATED,
   JH5E_TST,
   JH5E_UNINITIALIZED,
   JH5E_UNSUPPORTED,
   JH5E_VERSION,
   JH5E_VFL,
   JH5E_WALK_DOWNWARD,
   JH5E_WALK_UPWARD,
   JH5E_WRITEERROR,
   JH5F_ACC_CREAT,
   JH5F_ACC_DEBUG,
   JH5F_ACC_EXCL,
   JH5F_ACC_RDONLY,
   JH5F_ACC_RDWR,
   JH5F_ACC_TRUNC,
   JH5F_CLOSE_DEFAULT,
   JH5F_CLOSE_SEMI,
   JH5F_CLOSE_STRONG,
   JH5F_CLOSE_WEAK,
   JH5F_OBJ_ALL,
   JH5F_OBJ_DATASET,
   JH5F_OBJ_DATATYPE,
   JH5F_OBJ_FILE,
   JH5F_OBJ_ATTR,
   JH5F_OBJ_GROUP,
   JH5F_SCOPE_DOWN,
   JH5F_SCOPE_GLOBAL,
   JH5F_SCOPE_LOCAL,
   JH5F_UNLIMITED,
   JH5F_LIBVER_EARLIEST,
   JH5F_LIBVER_LATEST,
   JH5G_DATASET,
   JH5G_GROUP,
   JH5G_LINK,
   JH5G_LINK_ERROR,
   JH5G_LINK_HARD,
   JH5G_LINK_SOFT,
   JH5G_NLIBTYPES,
   JH5G_NTYPES,
   JH5G_NUSERTYPES,
   JH5G_RESERVED_5,
   JH5G_RESERVED_6,
   JH5G_RESERVED_7,
   JH5G_SAME_LOC,
   JH5G_TYPE,
   JH5G_UNKNOWN,
   JH5I_ATTR,
   JH5I_BADID,
   JH5I_DATASET,
   JH5I_DATASPACE,
   JH5I_DATATYPE,
   JH5I_FILE,
   JH5I_GENPROP_CLS,
   JH5I_GENPROP_LST,
   JH5I_GROUP,
   JH5I_INVALID_HID,
   JH5I_REFERENCE,
   JH5I_VFL,
   JH5O_TYPE_UNKNOWN,
   JH5O_TYPE_GROUP,
   JH5O_TYPE_DATASET,
   JH5O_TYPE_NAMED_DATATYPE,
   JH5O_TYPE_NTYPES,
   JH5L_TYPE_ERROR,
   JH5L_TYPE_HARD,
   JH5L_TYPE_SOFT,
   JH5L_TYPE_EXTERNAL,
   JH5L_TYPE_MAX,
   JH5P_DATASET_CREATE,
   JH5P_DATASET_CREATE_DEFAULT,
   JH5P_DATASET_XFER,
   JH5P_DATASET_XFER_DEFAULT,
   JH5P_FILE_ACCESS,
   JH5P_FILE_ACCESS_DEFAULT,
   JH5P_FILE_CREATE,
   JH5P_FILE_CREATE_DEFAULT,
   JH5P_DEFAULT,
   JH5P_NO_CLASS,
   JH5P_ROOT,
   JH5P_OBJECT_CREATE,
   JH5P_DATASET_ACCESS,
   JH5P_DATASET_ACCESS_DEFAULT,
   JH5P_FILE_MOUNT,
   JH5P_FILE_MOUNT_DEFAULT,
   JH5P_GROUP_CREATE,
   JH5P_GROUP_CREATE_DEFAULT,
   JH5P_GROUP_ACCESS,
   JH5P_GROUP_ACCESS_DEFAULT,
   JH5P_DATATYPE_CREATE,
   JH5P_DATATYPE_CREATE_DEFAULT,
   JH5P_DATATYPE_ACCESS,
   JH5P_DATATYPE_ACCESS_DEFAULT,
   JH5P_STRING_CREATE,
   JH5P_ATTRIBUTE_CREATE,
   JH5P_ATTRIBUTE_CREATE_DEFAULT,
   JH5P_OBJECT_COPY,
   JH5P_OBJECT_COPY_DEFAULT,
   JH5P_LINK_CREATE,
   JH5P_LINK_CREATE_DEFAULT,
   JH5P_LINK_ACCESS,
   JH5P_LINK_ACCESS_DEFAULT,
   JH5R_BADTYPE,
   JH5R_DATASET_REGION,
   JH5R_MAXTYPE,
   JH5R_OBJ_REF_BUF_SIZE,
   JH5R_OBJECT,
   JH5S_ALL,
   JH5S_MAX_RANK,
   JH5S_NO_CLASS,
   JH5S_NULL,
   JH5S_SCALAR,
   JH5S_SEL_ALL,
   JH5S_SEL_ERROR,
   JH5S_SEL_HYPERSLABS,
   JH5S_SEL_N,
   JH5S_SEL_NONE,
   JH5S_SEL_POINTS,
   JH5S_SELECT_AND,
   JH5S_SELECT_APPEND,
   JH5S_SELECT_INVALID,
   JH5S_SELECT_NOOP,
   JH5S_SELECT_NOTA,
   JH5S_SELECT_NOTB,
   JH5S_SELECT_OR,
   JH5S_SELECT_PREPEND,
   JH5S_SELECT_SET,
   JH5S_SELECT_XOR,
   JH5S_SIMPLE,
   JH5S_UNLIMITED,
   JH5T_ALPHA_B16,
   JH5T_ALPHA_B32,
   JH5T_ALPHA_B64,
   JH5T_ALPHA_B8,
   JH5T_ALPHA_F32,
   JH5T_ALPHA_F64,
   JH5T_ALPHA_I16,
   JH5T_ALPHA_I32,
   JH5T_ALPHA_I64,
   JH5T_ALPHA_I8,
   JH5T_ALPHA_U16,
   JH5T_ALPHA_U32,
   JH5T_ALPHA_U64,
   JH5T_ALPHA_U8,
   JH5T_ARRAY,
   JH5T_BITFIELD,
   JH5T_BKG_NO,
   JH5T_BKG_YES,
   JH5T_C_S1,
   JH5T_COMPOUND,
   JH5T_CONV_CONV,
   JH5T_CONV_FREE,
   JH5T_CONV_INIT,
   JH5T_CSET_ASCII,
   JH5T_CSET_ERROR,
   JH5T_CSET_RESERVED_10,
   JH5T_CSET_RESERVED_11,
   JH5T_CSET_RESERVED_12,
   JH5T_CSET_RESERVED_13,
   JH5T_CSET_RESERVED_14,
   JH5T_CSET_RESERVED_15,
   JH5T_CSET_RESERVED_2,
   JH5T_CSET_RESERVED_3,
   JH5T_CSET_RESERVED_4,
   JH5T_CSET_RESERVED_5,
   JH5T_CSET_RESERVED_6,
   JH5T_CSET_RESERVED_7,
   JH5T_CSET_RESERVED_8,
   JH5T_CSET_RESERVED_9,
   JH5T_DIR_ASCEND,
   JH5T_DIR_DEFAULT,
   JH5T_DIR_DESCEND,
   JH5T_ENUM,
   JH5T_FLOAT,
   JH5T_FORTRAN_S1,
   JH5T_IEEE_F32BE,
   JH5T_IEEE_F32LE,
   JH5T_IEEE_F64BE,
   JH5T_IEEE_F64LE,
   JH5T_INTEGER,
   JH5T_INTEL_B16,
   JH5T_INTEL_B32,
   JH5T_INTEL_B64,
   JH5T_INTEL_B8,
   JH5T_INTEL_F32,
   JH5T_INTEL_F64,
   JH5T_INTEL_I16,
   JH5T_INTEL_I32,
   JH5T_INTEL_I64,
   JH5T_INTEL_I8,
   JH5T_INTEL_U16,
   JH5T_INTEL_U32,
   JH5T_INTEL_U64,
   JH5T_INTEL_U8,
   JH5T_MIPS_B16,
   JH5T_MIPS_B32,
   JH5T_MIPS_B64,
   JH5T_MIPS_B8,
   JH5T_MIPS_F32,
   JH5T_MIPS_F64,
   JH5T_MIPS_I16,
   JH5T_MIPS_I32,
   JH5T_MIPS_I64,
   JH5T_MIPS_I8,
   JH5T_MIPS_U16,
   JH5T_MIPS_U32,
   JH5T_MIPS_U64,
   JH5T_MIPS_U8,
   JH5T_NATIVE_B16,
   JH5T_NATIVE_B32,
   JH5T_NATIVE_B64,
   JH5T_NATIVE_B8,
   JH5T_NATIVE_CHAR,
   JH5T_NATIVE_DOUBLE,
   JH5T_NATIVE_FLOAT,
   JH5T_NATIVE_HADDR,
   JH5T_NATIVE_HBOOL,
   JH5T_NATIVE_HERR,
   JH5T_NATIVE_HSIZE,
   JH5T_NATIVE_HSSIZE,
   JH5T_NATIVE_INT,
   JH5T_NATIVE_INT_FAST16,
   JH5T_NATIVE_INT_FAST32,
   JH5T_NATIVE_INT_FAST64,
   JH5T_NATIVE_INT_FAST8,
   JH5T_NATIVE_INT_LEAST16,
   JH5T_NATIVE_INT_LEAST32,
   JH5T_NATIVE_INT_LEAST64,
   JH5T_NATIVE_INT_LEAST8,
   JH5T_NATIVE_INT16,
   JH5T_NATIVE_INT32,
   JH5T_NATIVE_INT64,
   JH5T_NATIVE_INT8,
   JH5T_NATIVE_LDOUBLE,
   JH5T_NATIVE_LLONG,
   JH5T_NATIVE_LONG,
   JH5T_NATIVE_OPAQUE_c,
   JH5T_NATIVE_SCHAR,
   JH5T_NATIVE_SHORT,
   JH5T_NATIVE_UCHAR,
   JH5T_NATIVE_UINT,
   JH5T_NATIVE_UINT_FAST16,
   JH5T_NATIVE_UINT_FAST32,
   JH5T_NATIVE_UINT_FAST64,
   JH5T_NATIVE_UINT_FAST8,
   JH5T_NATIVE_UINT_LEAST16,
   JH5T_NATIVE_UINT_LEAST32,
   JH5T_NATIVE_UINT_LEAST64,
   JH5T_NATIVE_UINT_LEAST8,
   JH5T_NATIVE_UINT16,
   JH5T_NATIVE_UINT32,
   JH5T_NATIVE_UINT64,
   JH5T_NATIVE_UINT8,
   JH5T_NATIVE_ULLONG,
   JH5T_NATIVE_ULONG,
   JH5T_NATIVE_USHORT,
   JH5T_NCLASSES,
   JH5T_NO_CLASS,
   JH5T_NORM_ERROR,
   JH5T_NORM_IMPLIED,
   JH5T_NORM_MSBSET,
   JH5T_NORM_NONE,
   JH5T_NPAD,
   JH5T_NSGN,
   JH5T_OPAQUE_c,
   JH5T_OPAQUE_TAG_MAX,
   JH5T_ORDER_BE,
   JH5T_ORDER_ERROR,
   JH5T_ORDER_LE,
   JH5T_ORDER_NONE,
   JH5T_ORDER_VAX,
   JH5T_PAD_BACKGROUND,
   JH5T_PAD_ERROR,
   JH5T_PAD_ONE,
   JH5T_PAD_ZERO,
   JH5T_PERS_DONTCARE,
   JH5T_PERS_HARD,
   JH5T_PERS_SOFT,
   JH5T_REFERENCE,
   JH5T_SGN_2,
   JH5T_SGN_ERROR,
   JH5T_SGN_NONE,
   JH5T_STD_B16BE,
   JH5T_STD_B16LE,
   JH5T_STD_B32BE,
   JH5T_STD_B32LE,
   JH5T_STD_B64BE,
   JH5T_STD_B64LE,
   JH5T_STD_B8BE,
   JH5T_STD_B8LE,
   JH5T_STD_I16BE,
   JH5T_STD_I16LE,
   JH5T_STD_I32BE,
   JH5T_STD_I32LE,
   JH5T_STD_I64BE,
   JH5T_STD_I64LE,
   JH5T_STD_I8BE,
   JH5T_STD_I8LE,
   JH5T_STD_REF_DSETREG,
   JH5T_STD_REF_OBJ,
   JH5T_STD_U16BE,
   JH5T_STD_U16LE,
   JH5T_STD_U32BE,
   JH5T_STD_U32LE,
   JH5T_STD_U64BE,
   JH5T_STD_U64LE,
   JH5T_STD_U8BE,
   JH5T_STD_U8LE,
   JH5T_STR_ERROR,
   JH5T_STR_NULLPAD,
   JH5T_STR_NULLTERM,
   JH5T_STR_RESERVED_10,
   JH5T_STR_RESERVED_11,
   JH5T_STR_RESERVED_12,
   JH5T_STR_RESERVED_13,
   JH5T_STR_RESERVED_14,
   JH5T_STR_RESERVED_15,
   JH5T_STR_RESERVED_3,
   JH5T_STR_RESERVED_4,
   JH5T_STR_RESERVED_5,
   JH5T_STR_RESERVED_6,
   JH5T_STR_RESERVED_7,
   JH5T_STR_RESERVED_8,
   JH5T_STR_RESERVED_9,
   JH5T_STR_SPACEPAD,
   JH5T_STRING,
   JH5T_TIME,
   JH5T_UNIX_D32BE,
   JH5T_UNIX_D32LE,
   JH5T_UNIX_D64BE,
   JH5T_UNIX_D64LE,
   JH5T_VARIABLE,
   JH5T_VLEN,
   JH5Z_CB_CONT,
   JH5Z_CB_ERROR,
   JH5Z_CB_FAIL,
   JH5Z_CB_NO,
   JH5Z_DISABLE_EDC,
   JH5Z_ENABLE_EDC,
   JH5Z_ERROR_EDC,
   JH5Z_FILTER_DEFLATE,
   JH5Z_FILTER_ERROR,
   JH5Z_FILTER_FLETCHER32,
   JH5Z_FILTER_MAX,
   JH5Z_FILTER_NONE,
   JH5Z_FILTER_RESERVED,
   JH5Z_FILTER_SHUFFLE,
   JH5Z_FILTER_SZIP,
   JH5Z_FLAG_DEFMASK,
   JH5Z_FLAG_INVMASK,
   JH5Z_FLAG_MANDATORY,
   JH5Z_FLAG_OPTIONAL,
   JH5Z_FLAG_REVERSE,
   JH5Z_FLAG_SKIP_EDC,
   JH5Z_MAX_NFILTERS,
   JH5Z_NO_EDC,
   JH5Z_FILTER_CONFIG_ENCODE_ENABLED,
   JH5Z_FILTER_CONFIG_DECODE_ENABLED]
/-- defineHDF5LibraryException from exceptionImp.c: the conditional chain
mapping a major error code to the fully qualified name of the exception
sub-class, with the generic HDF5LibraryException for every unrecognized code.
The H5E_* category codes are native constants of the linked library. -/
def defineHDF5LibraryException (lib : NativeLib) (maj_num : Int) : String :=
  if maj_num = lib.constVal NativeSym.H5E_ARGS then
    "ncsa/hdf/hdf5lib/exceptions/HDF5FunctionArgumentException"
  else if maj_num = lib.constVal NativeSym.H5E_RESOURCE then
    "ncsa/hdf/hdf5lib/exceptions/HDF5ResourceUnavailableException"
  else if maj_num = lib.constVal NativeSym.H5E_INTERNAL then
    "ncsa/hdf/hdf5lib/exceptions/HDF5InternalErrorException"
  else if maj_num = lib.constVal NativeSym.H5E_FILE then
    "ncsa/hdf/hdf5lib/exceptions/HDF5FileInterfaceException"
  else if maj_num = lib.constVal NativeSym.H5E_IO_c then
    "ncsa/hdf/hdf5lib/exceptions/HDF5LowLevelIOException"
  else if maj_num = lib.constVal NativeSym.H5E_FUNC then
    "ncsa/hdf/hdf5lib/exceptions/HDF5FunctionEntryExitException"
  else if maj_num = lib.constVal NativeSym.H5E_ATOM then
    "ncsa/hdf/hdf5lib/exceptions/HDF5AtomException"
  else if maj_num = lib.constVal NativeSym.H5E_CACHE then
    "ncsa/hdf/hdf5lib/exceptions/HDF5MetaDataCacheException"
  else if maj_num = lib.constVal NativeSym.H5E_BTREE then
    "ncsa/hdf/hdf5lib/exceptions/HDF5BtreeException"
  else if maj_num = lib.constVal NativeSym.H5E_SYM then
    "ncsa/hdf/hdf5lib/exceptions/HDF5SymbolTableException"
  else if maj_num = lib.constVal NativeSym.H5E_HEAP then
    "ncsa/hdf/hdf5lib/exceptions/HDF5HeapException"
  else if maj_num = lib.constVal NativeSym.H5E_OHDR then
    "ncsa/hdf/hdf5lib/exceptions/HDF5ObjectHeaderException"
  else if maj_num = lib.constVal NativeSym.H5E_DATATYPE then
    "ncsa/hdf/hdf5lib/exceptions/HDF5DatatypeInterfaceException"
  else if maj_num = lib.constVal NativeSym.H5E_DATASPACE then
    "ncsa/hdf/hdf5lib/exceptions/HDF5DataspaceInterfaceException"
  else if maj_num = lib.constVal NativeSym.H5E_DATASET then
    "ncsa/hdf/hdf5lib/exceptions/HDF5DatasetInterfaceException"
  else if maj_num = lib.constVal NativeSym.H5E_STORAGE then
    "ncsa/hdf/hdf5lib/exceptions/HDF5DataStorageException"
  else if maj_num = lib.constVal NativeSym.H5E_PLIST then
    "ncsa/hdf/hdf5lib/exceptions/HDF5PropertyListInterfaceException"
  else if maj_num = lib.constVal NativeSym.H5E_ATTR then
    "ncsa/hdf/hdf5lib/exceptions/HDF5AttributeException"
  else if maj_num = lib.constVal NativeSym.H5E_PLINE then
    "ncsa/hdf/hdf5lib/exceptions/HDF5DataFiltersException"
  else if maj_num = lib.constVal NativeSym.H5E_EFL then
    "ncsa/hdf/hdf5lib/exceptions/HDF5ExternalFileListException"
  else if maj_num = lib.constVal NativeSym.H5E_REFERENCE then
    "ncsa/hdf/hdf5lib/exceptions/HDF5ReferenceException"
  else
    "ncsa/hdf/hdf5lib/exceptions/HDF5LibraryException"

/-- The recognized category table of defineHDF5LibraryException: the 21 major
error categories in chain order, each with its exception class name.  The chain
above is first-match dispatch over exactly this table. -/
def catTable (lib : NativeLib) : List (Int × String) :=
  [(lib.constVal NativeSym.H5E_ARGS,
    "ncsa/hdf/hdf5lib/exceptions/HDF5FunctionArgumentException"),
   (lib.constVal NativeSym.H5E_RESOURCE,
    "ncsa/hdf/hdf5lib/exceptions/HDF5ResourceUnavailableException"),
   (lib.constVal NativeSym.H5E_INTERNAL,
    "ncsa/hdf/hdf5lib/exceptions/HDF5InternalErrorException"),
   (lib.constVal NativeSym.H5E_FILE,
    "ncsa/hdf/hdf5lib/exceptions/HDF5FileInterfaceException"),
   (lib.constVal NativeSym.H5E_IO_c,
    "ncsa/hdf/hdf5lib/exceptions/HDF5LowLevelIOException"),
   (lib.constVal NativeSym.H5E_FUNC,
    "ncsa/hdf/hdf5lib/exceptions/HDF5FunctionEntryExitException"),
   (lib.constVal NativeSym.H5E_ATOM,
    "ncsa/hdf/hdf5lib/exceptions/HDF5AtomException"),
   (lib.constVal NativeSym.H5E_CACHE,
    "ncsa/hdf/hdf5lib/exceptions/HDF5MetaDataCacheException"),
   (lib.constVal NativeSym.H5E_BTREE,
    "ncsa/hdf/hdf5lib/exceptions/HDF5BtreeException"),
   (lib.constVal NativeSym.H5E_SYM,
    "ncsa/hdf/hdf5lib/exceptions/HDF5SymbolTableException"),
   (lib.constVal NativeSym.H5E_HEAP,
    "ncsa/hdf/hdf5lib/exceptions/HDF5HeapException"),
   (lib.constVal NativeSym.H5E_OHDR,
    "ncsa/hdf/hdf5lib/exceptions/HDF5ObjectHeaderException"),
   (lib.constVal NativeSym.H5E_DATATYPE,
    "ncsa/hdf/hdf5lib/exceptions/HDF5DatatypeInterfaceException"),
   (lib.constVal NativeSym.H5E_DATASPACE,
    "ncsa/hdf/hdf5lib/exceptions/HDF5DataspaceInterfaceException"),
   (lib.constVal NativeSym.H5E_DATASET,
    "ncsa/hdf/hdf5lib/exceptions/HDF5DatasetInterfaceException"),
   (lib.constVal NativeSym.H5E_STORAGE,
    "ncsa/hdf/hdf5lib/exceptions/HDF5DataStorageException"),
   (lib.constVal NativeSym.H5E_PLIST,
    "ncsa/hdf/hdf5lib/exceptions/HDF5PropertyListInterfaceException"),
   (lib.constVal NativeSym.H5E_ATTR,
    "ncsa/hdf/hdf5lib/exceptions/HDF5AttributeException"),
   (lib.constVal NativeSym.H5E_PLINE,
    "ncsa/hdf/hdf5lib/exceptions/HDF5DataFiltersException"),
   (lib.constVal NativeSym.H5E_EFL,
    "ncsa/hdf/hdf5lib/exceptions/HDF5ExternalFileListException"),
   (lib.constVal NativeSym.H5E_REFERENCE,
    "ncsa/hdf/hdf5lib/exceptions/HDF5ReferenceException")]

/-- One HDF5 error-stack frame: H5E_error_t restricted to the two fields the
walk callback reads. -/
structure H5E_error_t where
  maj_num : Int
  min_num : Int
  deriving DecidableEq

/-- The major/minor accumulator H5E_num_t of exceptionImp.c. -/
structure H5E_num_t where
  maj_num : Int
  min_num : Int
  deriving DecidableEq

/-- walk_error_callback from exceptionImp.c: overwrite the accumulator with
the codes of the entry being visited; a null entry pointer leaves the
accumulator unchanged.  Always returns 0, so the walk never stops early. -/
def walk_error_callback (err_desc : Option H5E_error_t) (err_nums : H5E_num_t) :
    H5E_num_t :=
  match err_desc with
  | some d => ⟨d.maj_num, d.min_num⟩
  | none => err_nums

/-- Modelled behaviour of the external native library's H5Ewalk with direction
H5E_WALK_DOWNWARD: the callback is invoked once per error-stack entry, in
downward visit order; `stack` lists the entries in that visit order and `init`
is the accumulator exactly as the caller passed it in (the source passes the
address of an uninitialized local, so `init` models that initial garbage). -/
def H5Ewalk_downward (stack : List H5E_error_t) (init : H5E_num_t) : H5E_num_t :=
  stack.foldl (fun acc e => walk_error_callback (some e) acc) init

/-- getMajorErrorNumber from exceptionImp.c: walk the thread-local error stack
downward and return the major code left in the accumulator.  `init` is the
initial content of the uninitialized local err_nums. -/
def getMajorErrorNumber (init : H5E_num_t) (stack : List H5E_error_t) : Int :=
  (H5Ewalk_downward stack init).maj_num

/-- getMinorErrorNumber from exceptionImp.c: walk the thread-local error stack
downward and return the minor code left in the accumulator.  `init` is the
initial content of the uninitialized local err_nums. -/
def getMinorErrorNumber (init : H5E_num_t) (stack : List H5E_error_t) : Int :=
  (H5Ewalk_downward stack init).min_num

/-- The native library's error-message tables: H5Eget_major and H5Eget_minor
return the human-readable message for a code, straight from the linked
library at call time. -/
structure H5MsgTables where
  H5Eget_major : Int → String
  H5Eget_minor : Int → String

/-- h5libraryError from exceptionImp.c: read the major code from the error
stack, fetch its message via H5Eget_major, choose the exception sub-class via
defineHDF5LibraryException, locate class and 4-argument constructor, read the
minor code and fetch its message via H5Eget_minor, build the two message
strings, construct the exception with arguments (major code, major message,
minor code, minor message) and throw it.  `init1` and `init2` are the initial
contents of the two uninitialized locals inside the two stack walks. -/
def h5libraryError (env : JNIEnv) (lib : NativeLib) (tab : H5MsgTables)
    (init1 init2 : H5E_num_t) (stack : List H5E_error_t) : RaiserResult :=
  if env.findClassOk (defineHDF5LibraryException lib (getMajorErrorNumber init1 stack)) then
    if env.getMethodOk (defineHDF5LibraryException lib (getMajorErrorNumber init1 stack))
        "(ILjava/lang/String;ILjava/lang/String;)V" then
      if env.newStringOk (tab.H5Eget_major (getMajorErrorNumber init1 stack)) &&
          env.newStringOk (tab.H5Eget_minor (getMinorErrorNumber init2 stack)) then
        if env.throwOk then
          ⟨true, [],
           some ⟨defineHDF5LibraryException lib (getMajorErrorNumber init1 stack),
                 JavaExArgs.codes (getMajorErrorNumber init1 stack)
                   (tab.H5Eget_major (getMajorErrorNumber init1 stack))
                   (getMinorErrorNumber init2 stack)
                   (tab.H5Eget_minor (getMinorErrorNumber init2 stack))⟩⟩
        else ⟨false, ["FATAL ERROR:  h5libraryError: Throw failed\n"], none⟩
      else ⟨false, ["FATAL ERROR: h5libraryError: Out of Memory\n"], none⟩
    else ⟨false, ["FATAL ERROR:  h5libraryError: Cannot find constructor\n"], none⟩
  else ⟨false, [], none⟩

/-- Where printStackTrace0 prints the error stack: the process standard error
stream, a successfully opened file stream, or the null stream obtained when
fopen fails. -/
inductive PrintTarget where
  | toStderr : PrintTarget
  | toFileStream : String → PrintTarget
  | toNullStream : PrintTarget
  deriving DecidableEq

/-- The observable effects of one printStackTrace0 call: where H5Eprint sent
the stack, whether fopen was called and with what arguments, whether it
succeeded, and whether fclose was called before returning. -/
structure StackDump where
  printedTo : PrintTarget
  fopenCalled : Option (String × String)
  fopenSucceeded : Bool
  fcloseCalled : Bool
  deriving DecidableEq

/-- printStackTrace0 from exceptionImp.c.  `fopenOk` models whether fopen
succeeds on a given path.  A null file name prints the stack to stderr with no
file activity; otherwise the named file is opened with mode "a+", H5Eprint is
called on the resulting stream (the null stream when fopen failed), and
`if (stream) fclose(stream);` closes the stream exactly when it was opened. -/
def printStackTrace0 (fopenOk : String → Bool) (file_name : Option String) :
    StackDump :=
  match file_name with
  | none => ⟨PrintTarget.toStderr, none, false, false⟩
  | some file =>
    ⟨if fopenOk file then PrintTarget.toFileStream file else PrintTarget.toNullStream,
     some (file, "a+"), fopenOk file, fopenOk file⟩

/-- The amended fail-silent contract of a one-String-constructor raiser: the
return value is JNI_TRUE exactly when class lookup, constructor lookup and the
throw all succeed; the only exception ever left pending is the intended one,
and none is pending when the raiser reports failure; stderr output appears
exactly when the throw itself fails (class and constructor lookup failures are
silent), and the only possible output line is the raiser's own diagnostic. -/
def raiserContract (env : JNIEnv) (cls : String) (intended : JavaException)
    (failMsg : String) (r : RaiserResult) : Prop :=
  (r.ret = true ↔ (env.findClassOk cls = true ∧
      env.getMethodOk cls "(Ljava/lang/String;)V" = true ∧ env.throwOk = true)) ∧
  (r.thrown = none ∨ r.thrown = some intended) ∧
  (r.ret = false → r.thrown = none) ∧
  (r.err ≠ [] ↔ (env.findClassOk cls = true ∧
      env.getMethodOk cls "(Ljava/lang/String;)V" = true ∧ env.throwOk = false)) ∧
  (r.err = [] ∨ r.err = [failMsg])

/-- The amended fail-silent contract of h5libraryError: JNI_TRUE exactly when
class lookup, constructor lookup, both message-string creations and the throw
succeed; the only exception ever left pending is the intended one with the
(major code, major message, minor code, minor message) payload, and none is
pending on failure; a class-lookup failure is silent, while every later
failure (constructor lookup, string creation, throw) prints a diagnostic, so
stderr output appears exactly when the raiser fails after finding the class. -/
def libRaiserContract (env : JNIEnv) (lib : NativeLib) (tab : H5MsgTables)
    (init1 init2 : H5E_num_t) (stack : List H5E_error_t) : Prop :=
  ((h5libraryError env lib tab init1 init2 stack).ret = true ↔
    (env.findClassOk (defineHDF5LibraryException lib (getMajorErrorNumber init1 stack)) = true ∧
     env.getMethodOk (defineHDF5LibraryException lib (getMajorErrorNumber init1 stack))
       "(ILjava/lang/String;ILjava/lang/String;)V" = true ∧
     env.newStringOk (tab.H5Eget_major (getMajorErrorNumber init1 stack)) = true ∧
     env.newStringOk (tab.H5Eget_minor (getMinorErrorNumber init2 stack)) = true ∧
     env.throwOk = true)) ∧
  ((h5libraryError env lib tab init1 init2 stack).thrown = none ∨
   (h5libraryError env lib tab init1 init2 stack).thrown =
     some ⟨defineHDF5LibraryException lib (getMajorErrorNumber init1 stack),
           JavaExArgs.codes (getMajorErrorNumber init1 stack)
             (tab.H5Eget_major (getMajorErrorNumber init1 stack))
             (getMinorErrorNumber init2 stack)
             (tab.H5Eget_minor (getMinorErrorNumber init2 stack))⟩) ∧
  ((h5libraryError env lib tab init1 init2 stack).ret = false →
    (h5libraryError env lib tab init1 init2 stack).thrown = none) ∧
  (env.findClassOk (defineHDF5LibraryException lib (getMajorErrorNumber init1 stack)) = false →
    (h5libraryError env lib tab init1 init2 stack).err = []) ∧
  ((h5libraryError env lib tab init1 init2 stack).err ≠ [] ↔
    ((h5libraryError env lib tab init1 init2 stack).ret = false ∧
     env.findClassOk (defineHDF5LibraryException lib (getMajorErrorNumber init1 stack)) = true))

/-- A managed-runtime environment in which every JNI operation succeeds. -/
def sampleEnv : JNIEnv := ⟨fun _ => true, fun _ _ => true, fun _ => true, true⟩

/-- A managed-runtime environment in which FindClass always fails and every
other JNI operation succeeds. -/
def classNotFoundEnv : JNIEnv := ⟨fun _ => false, fun _ _ => true, fun _ => true, true⟩

/-- Sample compiled-in values for the int-valued native constants: the 21
major error categories get distinct values so the classifier chain can be
exercised concretely; every other constant gets 0.  Used only to build
concrete witnesses. -/
def sampleConstVal : NativeSym → Int
  | NativeSym.H5E_ARGS => 1
  | NativeSym.H5E_RESOURCE => 2
  | NativeSym.H5E_INTERNAL => 3
  | NativeSym.H5E_FILE => 4
  | NativeSym.H5E_IO_c => 5
  | NativeSym.H5E_FUNC => 6
  | NativeSym.H5E_ATOM => 7
  | NativeSym.H5E_CACHE => 8
  | NativeSym.H5E_BTREE => 9
  | NativeSym.H5E_SYM => 10
  | NativeSym.H5E_HEAP => 11
  | NativeSym.H5E_OHDR => 12
  | NativeSym.H5E_DATATYPE => 13
  | NativeSym.H5E_DATASPACE => 14
  | NativeSym.H5E_DATASET => 15
  | NativeSym.H5E_STORAGE => 16
  | NativeSym.H5E_PLIST => 17
  | NativeSym.H5E_ATTR => 18
  | NativeSym.H5E_PLINE => 19
  | NativeSym.H5E_EFL => 20
  | NativeSym.H5E_REFERENCE => 21
  | _ => 0

/-- A sample linked native library, used only to build concrete witnesses:
the sample constant values above, and all-ones 64-bit sentinels. -/
def sampleLib : NativeLib :=
  ⟨sampleConstVal, 18446744073709551615, 18446744073709551615⟩

/-- Sample message tables, used only to build concrete witnesses. -/
def sampleTables : H5MsgTables :=
  ⟨fun n => "major message " ++ toString n, fun n => "minor message " ++ toString n⟩
/-- First-match lookup returns the value of a listed key when the key column
has no duplicates. -/
theorem assocLookupD_mem {α : Type} (l : List (Int × α)) (k : Int) (v d : α)
    (hnd : (l.map Prod.fst).Nodup) (hm : (k, v) ∈ l) :
    assocLookupD l k d = v := by
  induction l with
  | nil => cases hm
  | cons p rest ih =>
    rw [List.map_cons, List.nodup_cons] at hnd
    rcases List.mem_cons.mp hm with h | h
    · cases h
      simp [assocLookupD]
    · have hk : ¬ (k = p.1) := by
        intro he
        exact hnd.1 (he ▸ List.mem_map_of_mem Prod.fst h)
      unfold assocLookupD
      rw [if_neg hk]
      exact ih hnd.2 h

/-- First-match lookup of an unlisted key returns the default. -/
theorem assocLookupD_not_mem {α : Type} (l : List (Int × α)) (k : Int) (d : α)
    (h : k ∉ l.map Prod.fst) : assocLookupD l k d = d := by
  induction l with
  | nil => rfl
  | cons p rest ih =>
    rw [List.map_cons, List.mem_cons, not_or] at h
    unfold assocLookupD
    rw [if_neg h.1]
    exact ih h.2

/-- First-match lookup always yields either the default or a listed value. -/
theorem assocLookupD_default_or_mem {α : Type} (l : List (Int × α)) (k : Int)
    (d : α) :
    assocLookupD l k d = d ∨ assocLookupD l k d ∈ l.map Prod.snd := by
  induction l with
  | nil => exact Or.inl rfl
  | cons p rest ih =>
    unfold assocLookupD
    by_cases hc : k = p.1
    · rw [if_pos hc]
      exact Or.inr (List.mem_map_of_mem Prod.snd (List.mem_cons_self p rest))
    · rw [if_neg hc]
      rcases ih with h | h
      · exact Or.inl h
      · refine Or.inr ?_
        rw [List.map_cons]
        exact List.mem_cons_of_mem _ h

/-- Sequential freshness check over a list of identifiers, using a natural
number as a bit set: it succeeds only when every identifier is nonnegative and
no identifier's bit is already set when it is reached.  This is a linear-time
duplicate test the kernel can evaluate with big-number arithmetic, instead of
a quadratic pairwise comparison. -/
def freshIds : List Int → Nat → Bool
  | [], _ => true
  | x :: rest, acc =>
    if x < 0 then false
    else if acc.testBit x.toNat then false
    else freshIds rest (acc ||| 2 ^ x.toNat)

/-- If the freshness check succeeds from accumulator `acc`, no identifier
whose bit is set in `acc` occurs in the list. -/
theorem freshIds_not_mem (l : List Int) : ∀ (acc : Nat) (x : Int),
    freshIds l acc = true → 0 ≤ x → acc.testBit x.toNat = true → x ∉ l := by
  induction l with
  | nil =>
    intro acc x _ _ _
    exact List.not_mem_nil x
  | cons y rest ih =>
    intro acc x hf hx hbit
    unfold freshIds at hf
    by_cases hy : y < 0
    · rw [if_pos hy] at hf
      cases hf
    · rw [if_neg hy] at hf
      by_cases hyb : acc.testBit y.toNat = true
      · rw [if_pos hyb] at hf
        cases hf
      · rw [if_neg hyb] at hf
        intro hmem
        rcases List.mem_cons.mp hmem with he | he
        · subst he
          exact hyb hbit
        · refine ih (acc ||| 2 ^ y.toNat) x hf hx ?_ he
          rw [Nat.testBit_lor, hbit]
          rfl

/-- A list passing the freshness check has no duplicates. -/
theorem freshIds_nodup (l : List Int) : ∀ (acc : Nat),
    freshIds l acc = true → l.Nodup := by
  induction l with
  | nil =>
    intro _ _
    exact List.nodup_nil
  | cons y rest ih =>
    intro acc hf
    unfold freshIds at hf
    by_cases hy : y < 0
    · rw [if_pos hy] at hf
      cases hf
    · rw [if_neg hy] at hf
      by_cases hyb : acc.testBit y.toNat = true
      · rw [if_pos hyb] at hf
        cases hf
      · rw [if_neg hyb] at hf
        rw [List.nodup_cons]
        constructor
        · refine freshIds_not_mem rest (acc ||| 2 ^ y.toNat) y hf (not_lt.mp hy) ?_
          rw [Nat.testBit_lor, Nat.testBit_two_pow]
          simp
        · exact ih (acc ||| 2 ^ y.toNat) hf

/-- The bit set of the nonnegative identifiers of a list. -/
def idMask : List Int → Nat
  | [] => 0
  | x :: rest => (if x < 0 then 0 else 2 ^ x.toNat) ||| idMask rest

/-- A nonnegative identifier whose bit is set in a list's bit set occurs in
the list. -/
theorem mem_of_idMask_testBit (l : List Int) : ∀ (x : Int), 0 ≤ x →
    (idMask l).testBit x.toNat = true → x ∈ l := by
  induction l with
  | nil =>
    intro x _ hb
    unfold idMask at hb
    rw [Nat.zero_testBit] at hb
    cases hb
  | cons y rest ih =>
    intro x hx hb
    unfold idMask at hb
    rw [Nat.testBit_lor] at hb
    rcases Bool.or_eq_true_iff.mp hb with h | h
    · by_cases hy : y < 0
      · rw [if_pos hy, Nat.zero_testBit] at h
        cases h
      · rw [if_neg hy, Nat.testBit_two_pow] at h
        have ht : y.toNat = x.toNat := of_decide_eq_true h
        have hxy : y = x := by
          rw [← Int.toNat_of_nonneg (not_lt.mp hy), ← Int.toNat_of_nonneg hx, ht]
        rw [← hxy]
        exact List.mem_cons_self y rest
    · exact List.mem_cons_of_mem y (ih x hx h)

/-- The key column of the J2C dispatch table is the known identifier list. -/
theorem j2cTable_keys (lib : NativeLib) :
    (j2cTable lib).map Prod.fst = knownIdList := rfl

/-- The known identifier list has no duplicates: the case labels of the J2C
switch are pairwise distinct. -/
theorem knownIdList_nodup : knownIdList.Nodup :=
  freshIds_nodup knownIdList 0 (by decide)
/-- The classifier chain of defineHDF5LibraryException is first-match dispatch
over its category table. -/
theorem define_eq_lookup (lib : NativeLib) (maj : Int) :
    defineHDF5LibraryException lib maj =
      assocLookupD (catTable lib) maj
        "ncsa/hdf/hdf5lib/exceptions/HDF5LibraryException" := rfl

/-- C1: for every symbolic constant identifier in the known set (every
identifier with a live case in the J2C switch, i.e. every key of the dispatch
table read off that switch), J2C returns exactly the outcome of that case: the
native library's compiled-in constant value for the identifier, with no
pending exception, no stderr output and no native-library call. -/
theorem j2c_known_returns_native (env : JNIEnv) (lib : NativeLib) (c v : Int)
    (hm : (c, j2cOk v) ∈ j2cTable lib) :
    J2C env lib c = j2cOk v := by
  unfold J2C
  refine assocLookupD_mem (j2cTable lib) c (j2cOk v) (j2cDefault env) ?_ hm
  rw [j2cTable_keys]
  exact knownIdList_nodup

/-- Witness for C1 at the identifier JH5D_CHUNKED (1080). -/
theorem j2c_known_returns_native_witness :
    J2C sampleEnv sampleLib JH5D_CHUNKED =
      j2cOk (sampleLib.constVal NativeSym.H5D_CHUNKED) :=
  j2c_known_returns_native sampleEnv sampleLib JH5D_CHUNKED
    (sampleLib.constVal NativeSym.H5D_CHUNKED) (by decide)

/-- C2: for every identifier outside the known set, J2C reaches the default
branch: no native-library call is performed, the jint return value is -1, and
h5illegalConstantError is invoked, which raises an IllegalArgumentException
constructed with the single message string "Illegal java constant" whenever
the exception machinery is functional. -/
theorem j2c_unknown_raises_illegal (env : JNIEnv) (lib : NativeLib) (c : Int)
    (hc : c ∉ knownIdList) :
    J2C env lib c = j2cDefault env ∧
    (J2C env lib c).nativeCalls = [] ∧
    (J2C env lib c).ret = -1 ∧
    (env.findClassOk "java/lang/IllegalArgumentException" = true →
      env.getMethodOk "java/lang/IllegalArgumentException"
        "(Ljava/lang/String;)V" = true →
      env.throwOk = true →
      (J2C env lib c).pending =
        some ⟨"java/lang/IllegalArgumentException",
              JavaExArgs.msg "Illegal java constant"⟩) := by
  have hd : J2C env lib c = j2cDefault env := by
    unfold J2C
    refine assocLookupD_not_mem (j2cTable lib) c (j2cDefault env) ?_
    rw [j2cTable_keys]
    exact hc
  refine ⟨hd, ?_, ?_, ?_⟩
  · rw [hd]
    rfl
  · rw [hd]
    rfl
  · intro h1 h2 h3
    rw [hd]
    simp [j2cDefault, h5illegalConstantError, simpleRaiser, h1, h2, h3]

/-- Witness for C2 at the unknown identifier 999. -/
theorem j2c_unknown_raises_illegal_witness :
    (J2C sampleEnv sampleLib 999).pending =
      some ⟨"java/lang/IllegalArgumentException",
            JavaExArgs.msg "Illegal java constant"⟩ :=
  (j2c_unknown_raises_illegal sampleEnv sampleLib 999 (by decide)).2.2.2
    rfl rfl rfl

/-- C3: defineHDF5LibraryException is a total pure classification: whenever
the major category codes of the linked library are pairwise distinct, every
recognized category maps to its own exception class name, every unrecognized
major code maps to the generic HDF5LibraryException name, and on any input
the result is one of those class names, so it never fails to produce one. -/
theorem defineHDF5LibraryException_classifies (lib : NativeLib)
    (hnd : ((catTable lib).map Prod.fst).Nodup) (maj : Int) :
    (∀ name, (maj, name) ∈ catTable lib →
      defineHDF5LibraryException lib maj = name) ∧
    (maj ∉ (catTable lib).map Prod.fst →
      defineHDF5LibraryException lib maj =
        "ncsa/hdf/hdf5lib/exceptions/HDF5LibraryException") ∧
    (defineHDF5LibraryException lib maj =
        "ncsa/hdf/hdf5lib/exceptions/HDF5LibraryException" ∨
      defineHDF5LibraryException lib maj ∈ (catTable lib).map Prod.snd) := by
  refine ⟨?_, ?_, ?_⟩
  · intro name hm
    rw [define_eq_lookup]
    exact assocLookupD_mem (catTable lib) maj name _ hnd hm
  · intro h
    rw [define_eq_lookup]
    exact assocLookupD_not_mem (catTable lib) maj _ h
  · rw [define_eq_lookup]
    exact assocLookupD_default_or_mem (catTable lib) maj _

/-- Witness for C3 at the btree category code of the sample library. -/
theorem defineHDF5LibraryException_classifies_witness :
    defineHDF5LibraryException sampleLib
        (sampleLib.constVal NativeSym.H5E_BTREE) =
      "ncsa/hdf/hdf5lib/exceptions/HDF5BtreeException" :=
  (defineHDF5LibraryException_classifies sampleLib (by decide)
      (sampleLib.constVal NativeSym.H5E_BTREE)).1
    "ncsa/hdf/hdf5lib/exceptions/HDF5BtreeException" (by decide)

/-- The downward walk leaves in the accumulator the codes of the last entry
visited. -/
theorem H5Ewalk_downward_getLast (stack : List H5E_error_t) :
    ∀ (init : H5E_num_t) (e : H5E_error_t), stack.getLast? = some e →
      H5Ewalk_downward stack init = ⟨e.maj_num, e.min_num⟩ := by
  induction stack with
  | nil =>
    intro init e h
    cases h
  | cons a t ih =>
    intro init e h
    cases t with
    | nil =>
      rw [List.getLast?_singleton] at h
      cases h
      rfl
    | cons b r =>
      rw [List.getLast?_cons_cons] at h
      exact ih (walk_error_callback (some a) init) e h

/-- C4: for every non-empty error stack, getMajorErrorNumber and
getMinorErrorNumber walk the thread-local stack downward and return the major
and minor code of the last entry visited in that walk (the deepest frame
reached); whatever the initial accumulator contents, the returned pair equals
that final entry's codes. -/
theorem errorNumbers_are_last_visited (init1 init2 : H5E_num_t)
    (stack : List H5E_error_t) (e : H5E_error_t)
    (h : stack.getLast? = some e) :
    getMajorErrorNumber init1 stack = e.maj_num ∧
    getMinorErrorNumber init2 stack = e.min_num := by
  unfold getMajorErrorNumber getMinorErrorNumber
  rw [H5Ewalk_downward_getLast stack init1 e h,
      H5Ewalk_downward_getLast stack init2 e h]
  exact ⟨rfl, rfl⟩

/-- Witness for C4 on a concrete two-entry stack. -/
theorem errorNumbers_are_last_visited_witness :
    getMajorErrorNumber ⟨1, 2⟩ [⟨3, 4⟩, ⟨7, 8⟩] = 7 ∧
    getMinorErrorNumber ⟨1, 2⟩ [⟨3, 4⟩, ⟨7, 8⟩] = 8 :=
  errorNumbers_are_last_visited ⟨1, 2⟩ ⟨1, 2⟩ [⟨3, 4⟩, ⟨7, 8⟩] ⟨7, 8⟩ rfl

/-- C5 counterexample: identifier JH5E_CANTMAKETREE (1640) is live (not
commented out) in h5Constants.h, yet it has no live case in the J2C switch:
it is outside the known set, and translating it reaches the illegal-constant
default instead of returning a native value. -/
theorem header_id_without_case :
    JH5E_CANTMAKETREE ∈ headerIdList ∧ JH5E_CANTMAKETREE ∉ knownIdList ∧
    J2C sampleEnv sampleLib JH5E_CANTMAKETREE = j2cDefault sampleEnv :=
  ⟨by decide, by decide, by decide⟩

/-- C5 amended: every identifier live in h5Constants.h other than the four
retired ones (JH5E_CANTMAKETREE 1640, JH5F_OBJ_LOCAL 2455, JH5G_USERTYPE 2660,
JH5I_FILE_CLOSING 2730, whose switch cases were removed for the linked native
library version) is in J2C's known set. -/
theorem header_ids_known_except_retired (c : Int) (hc : c ∈ headerIdList)
    (hr : c ∉ [JH5E_CANTMAKETREE, JH5F_OBJ_LOCAL, JH5G_USERTYPE,
               JH5I_FILE_CLOSING]) :
    c ∈ knownIdList := by
  have hcheck : ∀ x ∈ headerIdList,
      x ∈ [JH5E_CANTMAKETREE, JH5F_OBJ_LOCAL, JH5G_USERTYPE,
           JH5I_FILE_CLOSING] ∨
      (0 ≤ x ∧ (idMask knownIdList).testBit x.toNat = true) := by decide
  rcases hcheck c hc with h | h
  · exact absurd h hr
  · exact mem_of_idMask_testBit knownIdList c h.1 h.2

/-- Witness for C5 at the identifier JH5D_COMPACT (1090). -/
theorem header_ids_known_except_retired_witness :
    JH5D_COMPACT ∈ knownIdList :=
  header_ids_known_except_retired JH5D_COMPACT (by decide) (by decide)

/-- C7 (code-bug evidence): with an empty error stack the walk callback is
never invoked, and getMajorErrorNumber and getMinorErrorNumber return the
initial contents of the uninitialized local err_nums, so the result varies
with that garbage value instead of being a well-defined "none" pair. -/
theorem emptyStack_returns_uninitialized_local :
    getMajorErrorNumber ⟨1, 2⟩ [] = 1 ∧ getMinorErrorNumber ⟨1, 2⟩ [] = 2 ∧
    getMajorErrorNumber ⟨5, 6⟩ [] = 5 ∧
    getMajorErrorNumber ⟨1, 2⟩ [] ≠ getMajorErrorNumber ⟨5, 6⟩ [] :=
  ⟨rfl, rfl, rfl, by decide⟩
/-- Every one-String-constructor raiser satisfies the amended fail-silent
contract. -/
theorem simpleRaiser_contract (env : JNIEnv) (cls failMsg message : String) :
    raiserContract env cls ⟨cls, JavaExArgs.msg message⟩ failMsg
      (simpleRaiser env cls failMsg message) := by
  cases hc : env.findClassOk cls <;>
    cases hm : env.getMethodOk cls "(Ljava/lang/String;)V" <;>
      cases ht : env.throwOk <;>
        simp [raiserContract, simpleRaiser, hc, hm, ht]

/-- h5libraryError satisfies its amended fail-silent contract. -/
theorem h5libraryError_contract (env : JNIEnv) (lib : NativeLib)
    (tab : H5MsgTables) (init1 init2 : H5E_num_t)
    (stack : List H5E_error_t) :
    libRaiserContract env lib tab init1 init2 stack := by
  cases hc : env.findClassOk
      (defineHDF5LibraryException lib (getMajorErrorNumber init1 stack)) <;>
    cases hm : env.getMethodOk
        (defineHDF5LibraryException lib (getMajorErrorNumber init1 stack))
        "(ILjava/lang/String;ILjava/lang/String;)V" <;>
      cases h1 : env.newStringOk
          (tab.H5Eget_major (getMajorErrorNumber init1 stack)) <;>
        cases h2 : env.newStringOk
            (tab.H5Eget_minor (getMinorErrorNumber init2 stack)) <;>
          cases ht : env.throwOk <;>
            simp [libRaiserContract, h5libraryError, hc, hm, h1, h2, ht]

/-- C6 counterexample: when the exception class cannot be found, h5outOfMemory
returns the boolean failure value but writes nothing to the standard error
stream, refuting the claim that every such infrastructure failure emits a
stderr diagnostic. -/
theorem classNotFound_fails_without_diagnostic :
    (h5outOfMemory classNotFoundEnv "HDF5FunctionName").ret = false ∧
    (h5outOfMemory classNotFoundEnv "HDF5FunctionName").err = [] :=
  ⟨rfl, rfl⟩

/-- C6 amended: every raiser returns JNI_FALSE whenever the class lookup, the
constructor lookup or the throw fails, never leaves a different exception
pending, and returns JNI_TRUE exactly when the throw succeeded; a stderr
diagnostic is emitted exactly when the throw itself fails (for h5libraryError
also when the constructor lookup or message-string creation fails), while
class-lookup failures are silent. -/
theorem raisers_fail_silent (env : JNIEnv) (fn exName msg : String)
    (lib : NativeLib) (tab : H5MsgTables) (init1 init2 : H5E_num_t)
    (stack : List H5E_error_t) :
    raiserContract env "java/lang/OutOfMemoryError"
      ⟨"java/lang/OutOfMemoryError", JavaExArgs.msg fn⟩
      "FATAL ERROR:  OutOfMemoryError: Throw failed\n" (h5outOfMemory env fn) ∧
    raiserContract env "java/lang/InternalError"
      ⟨"java/lang/InternalError", JavaExArgs.msg fn⟩
      "FATAL ERROR:  JNIFatal: Throw failed\n" (h5JNIFatalError env fn) ∧
    raiserContract env "java/lang/NullPointerException"
      ⟨"java/lang/NullPointerException", JavaExArgs.msg fn⟩
      "FATAL ERROR:  NullPointer: Throw failed\n" (h5nullArgument env fn) ∧
    raiserContract env "java/lang/IllegalArgumentException"
      ⟨"java/lang/IllegalArgumentException", JavaExArgs.msg fn⟩
      "FATAL ERROR:  BadArgument: Throw failed\n" (h5badArgument env fn) ∧
    raiserContract env "java/lang/UnsupportedOperationException"
      ⟨"java/lang/UnsupportedOperationException", JavaExArgs.msg fn⟩
      "FATAL ERROR:  Unsupported: Throw failed\n" (h5unimplemented env fn) ∧
    raiserContract env "java/lang/IllegalArgumentException"
      ⟨"java/lang/IllegalArgumentException",
       JavaExArgs.msg "Illegal java constant"⟩
      "FATAL ERROR:  Unsupported: Throw failed\n"
      (h5illegalConstantError env) ∧
    raiserContract env exName ⟨exName, JavaExArgs.msg msg⟩
      "FATAL ERROR:  raiseException: Throw failed\n"
      (h5raiseException env exName msg) ∧
    libRaiserContract env lib tab init1 init2 stack := by
  refine ⟨?_, ?_, ?_, ?_, ?_, ?_, ?_, ?_⟩
  · exact simpleRaiser_contract env "java/lang/OutOfMemoryError"
      "FATAL ERROR:  OutOfMemoryError: Throw failed\n" fn
  · exact simpleRaiser_contract env "java/lang/InternalError"
      "FATAL ERROR:  JNIFatal: Throw failed\n" fn
  · exact simpleRaiser_contract env "java/lang/NullPointerException"
      "FATAL ERROR:  NullPointer: Throw failed\n" fn
  · exact simpleRaiser_contract env "java/lang/IllegalArgumentException"
      "FATAL ERROR:  BadArgument: Throw failed\n" fn
  · exact simpleRaiser_contract env "java/lang/UnsupportedOperationException"
      "FATAL ERROR:  Unsupported: Throw failed\n" fn
  · exact simpleRaiser_contract env "java/lang/IllegalArgumentException"
      "FATAL ERROR:  Unsupported: Throw failed\n" "Illegal java constant"
  · exact simpleRaiser_contract env exName
      "FATAL ERROR:  raiseException: Throw failed\n" msg
  · exact h5libraryError_contract env lib tab init1 init2 stack

/-- Witness for C6: in a fully functional environment, h5outOfMemory reports
success, extracted from the contract's success condition. -/
theorem raisers_fail_silent_witness :
    (h5outOfMemory sampleEnv "HDF5.H5Fopen").ret = true :=
  ((raisers_fail_silent sampleEnv "HDF5.H5Fopen" "java/lang/Error" "boom"
      sampleLib sampleTables ⟨0, 0⟩ ⟨0, 0⟩ []).1).1.mpr ⟨rfl, rfl, rfl⟩

/-- C8: on its success path, h5libraryError constructs the managed exception
of the class chosen by defineHDF5LibraryException via the 4-argument
constructor with arguments in the order (major code, major message, minor
code, minor message), where the codes are read from the current error stack at
raise time and both message strings are whatever the native message tables
H5Eget_major and H5Eget_minor return for those codes at raise time — the
statement holds for every message table, so nothing is cached. -/
theorem h5libraryError_payload (env : JNIEnv) (lib : NativeLib)
    (tab : H5MsgTables) (init1 init2 : H5E_num_t) (stack : List H5E_error_t)
    (hcls : env.findClassOk
      (defineHDF5LibraryException lib (getMajorErrorNumber init1 stack)) = true)
    (hctr : env.getMethodOk
      (defineHDF5LibraryException lib (getMajorErrorNumber init1 stack))
      "(ILjava/lang/String;ILjava/lang/String;)V" = true)
    (hs1 : env.newStringOk
      (tab.H5Eget_major (getMajorErrorNumber init1 stack)) = true)
    (hs2 : env.newStringOk
      (tab.H5Eget_minor (getMinorErrorNumber init2 stack)) = true)
    (hth : env.throwOk = true) :
    h5libraryError env lib tab init1 init2 stack =
      ⟨true, [],
       some ⟨defineHDF5LibraryException lib (getMajorErrorNumber init1 stack),
             JavaExArgs.codes (getMajorErrorNumber init1 stack)
               (tab.H5Eget_major (getMajorErrorNumber init1 stack))
               (getMinorErrorNumber init2 stack)
               (tab.H5Eget_minor (getMinorErrorNumber init2 stack))⟩⟩ := by
  simp [h5libraryError, hcls, hctr, hs1, hs2, hth]

/-- Witness for C8 on a one-entry stack with codes (3, 4). -/
theorem h5libraryError_payload_witness :
    h5libraryError sampleEnv sampleLib sampleTables ⟨0, 0⟩ ⟨0, 0⟩ [⟨3, 4⟩] =
      ⟨true, [],
       some ⟨defineHDF5LibraryException sampleLib 3,
             JavaExArgs.codes 3 (sampleTables.H5Eget_major 3) 4
               (sampleTables.H5Eget_minor 4)⟩⟩ :=
  h5libraryError_payload sampleEnv sampleLib sampleTables ⟨0, 0⟩ ⟨0, 0⟩
    [⟨3, 4⟩] rfl rfl rfl rfl rfl

/-- C9: with a null file name printStackTrace0 prints the native error stack
to the process standard error stream and touches no file; with a non-null
file name it opens that file with the append mode string "a+", prints the
stack to the opened stream when the open succeeded, and calls fclose exactly
when the open succeeded, so no exit path leaves the handle open. -/
theorem printStackTrace0_scopes_file_handle (fopenOk : String → Bool)
    (file : String) :
    (printStackTrace0 fopenOk none).printedTo = PrintTarget.toStderr ∧
    (printStackTrace0 fopenOk none).fopenCalled = none ∧
    (printStackTrace0 fopenOk (some file)).fopenCalled = some (file, "a+") ∧
    ((printStackTrace0 fopenOk (some file)).fopenSucceeded = true →
      (printStackTrace0 fopenOk (some file)).printedTo =
        PrintTarget.toFileStream file) ∧
    (printStackTrace0 fopenOk (some file)).fcloseCalled =
      (printStackTrace0 fopenOk (some file)).fopenSucceeded := by
  refine ⟨rfl, rfl, rfl, ?_, rfl⟩
  intro h
  simp [printStackTrace0] at h ⊢
  simp [h]

/-- Witness for C9 on a concrete path with a succeeding fopen. -/
theorem printStackTrace0_scopes_file_handle_witness :
    (printStackTrace0 (fun _ => true) (some "h5trace.txt")).printedTo =
      PrintTarget.toFileStream "h5trace.txt" :=
  (printStackTrace0_scopes_file_handle (fun _ => true) "h5trace.txt").2.2.2.1
    rfl

/-- C10: for the runtime-computed sentinel constants, the cast from the
unsigned 64-bit native representation to the signed 32-bit jint return value
preserves the bit pattern — the result is congruent to the native value modulo
2^32 — and does not preserve the numeric value when the native value's top bit
is set; and these cast values are exactly what J2C returns on the
JH5F_UNLIMITED (2490) and JH5S_UNLIMITED (3230) rows. -/
theorem unlimited_cast_preserves_bits (env : JNIEnv) (lib : NativeLib)
    (u : Nat) (hu : u < 18446744073709551616) :
    int32OfUInt64 u % 4294967296 = ((u % 4294967296 : Nat) : Int) ∧
    (9223372036854775808 ≤ u → int32OfUInt64 u ≠ (u : Int)) ∧
    J2C env lib JH5F_UNLIMITED = j2cOk (int32OfUInt64 lib.H5F_UNLIMITED) ∧
    J2C env lib JH5S_UNLIMITED = j2cOk (int32OfUInt64 lib.H5S_UNLIMITED) := by
  refine ⟨?_, ?_, rfl, rfl⟩
  · unfold int32OfUInt64
    split <;> omega
  · intro htop
    unfold int32OfUInt64
    split <;> omega

/-- Witness for C10 at the all-ones native value 2^64 - 1, whose cast is
congruent to 2^32 - 1 modulo 2^32 and differs from the native value. -/
theorem unlimited_cast_preserves_bits_witness :
    int32OfUInt64 18446744073709551615 % 4294967296 =
      ((18446744073709551615 % 4294967296 : Nat) : Int) ∧
    int32OfUInt64 18446744073709551615 ≠ (18446744073709551615 : Int) :=
  ⟨(unlimited_cast_preserves_bits sampleEnv sampleLib 18446744073709551615
      (by norm_num)).1,
   (unlimited_cast_preserves_bits sampleEnv sampleLib 18446744073709551615
      (by norm_num)).2.1 (by norm_num)⟩
